import Mathlib

/-!
Verification of the barkwise booking/availability engine
(`backend/app/services/service_store.py`) against its specification.

Shallow embedding conventions:
* the sqlite tables become lists of records inside one `ServiceStore` record;
* timestamps are integers counting seconds; a calendar date is an integer day
  index and a time-of-day slot is its minutes-after-midnight value, so the
  datetime obtained by `_parse_slot_datetime` is `day * 86400 + minutes * 60`;
* `datetime.utcnow()` becomes an explicit `now : Int` argument;
* generated `uuid4` identifiers become explicit string arguments;
* raising one of the four store exceptions becomes returning `Except.error`.
-/

namespace Barkwise

/-- The four error kinds of `ServiceStoreError` subclasses. -/
inductive StoreErr where
  | validation (msg : String)
  | notFound (msg : String)
  | conflict (msg : String)
  | permission (msg : String)
deriving DecidableEq, Repr

/-- Row of the `availability_slots` table (the `id` column is irrelevant to
behaviour and omitted; `is_booked` is always inserted as `0`). -/
structure AvailabilitySlotRow where
  provider_id : String
  slot_date : Int
  time_slot : Nat
  is_booked : Bool
deriving DecidableEq, Repr

/-- Row of the `provider_blackout_slots` table. -/
structure ProviderBlackout where
  id : String
  provider_id : String
  slot_date : Int
  time_slot : Nat
  reason : String
  created_by : String
  created_at : Int
deriving DecidableEq, Repr

/-- Row of the `booking_holds` table. -/
structure BookingHold where
  id : String
  owner_user_id : String
  provider_id : String
  booking_date : Int
  time_slot : Nat
  expires_at : Int
  created_at : Int
deriving DecidableEq, Repr

/-- Row of the `bookings` table. -/
structure Booking where
  id : String
  owner_user_id : String
  provider_id : String
  pet_name : String
  booking_date : Int
  time_slot : Nat
  note : String
  status : String
deriving DecidableEq, Repr

/-- Row of the `booking_status_history` table. -/
structure BookingStatusHistory where
  id : String
  booking_id : String
  actor_user_id : String
  from_status : String
  to_status : String
  note : String
  created_at : Int
deriving DecidableEq, Repr

/-- Row of the `quote_requests` table. -/
structure QuoteRequestRow where
  id : String
  user_id : String
  category : String
  suburb : String
  preferred_window : String
  pet_details : String
  note : String
  status : String
  created_at : Int
  updated_at : Int
deriving DecidableEq, Repr

/-- Row of the `quote_request_targets` table. -/
structure QuoteTargetRow where
  id : String
  quote_request_id : String
  provider_id : String
  owner_user_id : String
  status : String
  response_message : String
  created_at : Int
  responded_at : Option Int
  reminder_15_sent : Bool
  reminder_60_sent : Bool
deriving DecidableEq, Repr

/-- The persistent state of `ServiceStore`: each relevant table as a list of
rows.  `providers` keeps only the columns the verified operations read
(`id`, `status`); `provider_owners` maps `provider_id` to `user_id`. -/
structure ServiceStore where
  providers : List (String × String)
  provider_owners : List (String × String)
  availability_slots : List AvailabilitySlotRow
  provider_blackout_slots : List ProviderBlackout
  booking_holds : List BookingHold
  bookings : List Booking
  booking_status_history : List BookingStatusHistory
  quote_requests : List QuoteRequestRow
  quote_request_targets : List QuoteTargetRow
deriving DecidableEq, Repr

deriving instance DecidableEq for Except

/-- `BOOKING_ACTIVE_STATUSES` from the source. -/
def BOOKING_ACTIVE_STATUSES : List String :=
  ["requested", "provider_confirmed", "in_progress", "reschedule_requested", "rescheduled"]

/-- `BOOKING_TERMINAL_STATUSES` from the source. -/
def BOOKING_TERMINAL_STATUSES : List String :=
  ["provider_declined", "completed", "cancelled_by_owner", "cancelled_by_provider"]

/-- The fixed daily slot times of `ensure_availability`
("09:00", "11:00", "14:00", "16:00", "18:00") in minutes after midnight. -/
def daily_slot_times : List Nat := [540, 660, 840, 960, 1080]

/-- Absolute start time (seconds) of a slot: `_parse_slot_datetime`. -/
def slot_start (slot_date : Int) (time_slot : Nat) : Int :=
  slot_date * 86400 + (time_slot : Int) * 60

/-- `timedelta(hours=2)` in seconds: the lead-time cutoff. -/
def cutoff_seconds : Int := 7200

/-- `SELECT id FROM providers WHERE id = ?` of `_assert_provider_exists`. -/
def provider_exists (s : ServiceStore) (provider_id : String) : Bool :=
  s.providers.any (fun p => decide (p.1 = provider_id))

/-- Lookup of `availability_slots` by exact (provider, date, time) key. -/
def slot_exists (s : ServiceStore) (provider_id : String) (slot_date : Int)
    (time_slot : Nat) : Bool :=
  s.availability_slots.any
    (fun r => decide (r.provider_id = provider_id ∧ r.slot_date = slot_date ∧ r.time_slot = time_slot))

/-- The absence-check-then-insert step of `ensure_availability` for a single
(date, time) pair. -/
def insert_slot_row (provider_id : String) (slot_date : Int) (acc : ServiceStore)
    (t : Nat) : ServiceStore :=
  if slot_exists acc provider_id slot_date t then acc
  else { acc with availability_slots :=
           acc.availability_slots ++ [⟨provider_id, slot_date, t, false⟩] }

/-- `ensure_availability`: for each date in range, insert each of the five
daily slots when absent (`is_booked = 0`).  Runs in its own committed
transaction, so its effect persists even when the calling operation later
raises. -/
def ensure_availability (provider_id : String) (start_date : Int) (days : Nat)
    (s : ServiceStore) : ServiceStore :=
  (List.range days).foldl
    (fun (acc : ServiceStore) (d : Nat) =>
      daily_slot_times.foldl (insert_slot_row provider_id (start_date + (d : Int))) acc)
    s

/-- `_cleanup_expired_holds`: `DELETE FROM booking_holds WHERE expires_at <= now`. -/
def cleanup_expired_holds (now : Int) (s : ServiceStore) : ServiceStore :=
  { s with booking_holds := s.booking_holds.filter (fun h => decide (now < h.expires_at)) }

/-- `_slot_is_blocked`: blackout, then active booking (skipping
`ignore_booking_id`), then any hold; returns the blocking reason. -/
def slot_is_blocked (s : ServiceStore) (provider_id : String) (slot_date : Int)
    (time_slot : Nat) (ignore_booking_id : Option String) : Option String :=
  if s.provider_blackout_slots.any
      (fun b => decide (b.provider_id = provider_id ∧ b.slot_date = slot_date ∧ b.time_slot = time_slot)) then
    some "blackout"
  else if s.bookings.any
      (fun b => decide (b.provider_id = provider_id ∧ b.booking_date = slot_date ∧
        b.time_slot = time_slot ∧ ignore_booking_id ≠ some b.id ∧
        b.status ∈ BOOKING_ACTIVE_STATUSES)) then
    some "booked"
  else if s.booking_holds.any
      (fun h => decide (h.provider_id = provider_id ∧ h.booking_date = slot_date ∧ h.time_slot = time_slot)) then
    some "held"
  else
    none

/-- One element of the `get_available_slots` response
(`ServiceAvailabilitySlot`). -/
structure AvailabilityAnswer where
  slot_date : Int
  time_slot : Nat
  available : Bool
  reason : Option String
deriving DecidableEq, Repr

/-- The per-slot body of the `get_available_slots` loop: blocking check, then
the 2-hour cutoff check which overwrites `blocked`/`reason`. -/
def evaluate_slot (s : ServiceStore) (now : Int) (row : AvailabilitySlotRow) :
    AvailabilityAnswer :=
  let reason := slot_is_blocked s row.provider_id row.slot_date row.time_slot none
  if slot_start row.slot_date row.time_slot - now < cutoff_seconds then
    ⟨row.slot_date, row.time_slot, false, some "cutoff"⟩
  else
    ⟨row.slot_date, row.time_slot, reason.isNone, reason⟩

/-- `get_available_slots`: provider existence, ensure the day, purge expired
holds, then evaluate each of the day's slot rows.  The second component is the
store the operation leaves behind: a raised error rolls the enclosing
transaction back, so `NotFound` leaves the store untouched. -/
def get_available_slots (provider_id : String) (slot_date : Int) (now : Int)
    (s : ServiceStore) : Except StoreErr (List AvailabilityAnswer) × ServiceStore :=
  if ¬ provider_exists s provider_id then
    (.error (.notFound "Provider not found"), s)
  else
    let s1 := ensure_availability provider_id slot_date 1 s
    let s2 := cleanup_expired_holds now s1
    let rows := s2.availability_slots.filter
      (fun r => decide (r.provider_id = provider_id ∧ r.slot_date = slot_date))
    (.ok (rows.map (evaluate_slot s2 now)), s2)

/-- `BookingRequest` (pydantic model). -/
structure BookingRequest where
  user_id : String
  provider_id : String
  pet_name : String
  booking_date : Int
  time_slot : Nat
  note : String
deriving DecidableEq, Repr

/-- The `DELETE FROM booking_holds WHERE owner_user_id = ? AND provider_id = ?
AND booking_date = ? AND time_slot = ?` step of `create_booking`: drop the
requester's own hold on the exact slot. -/
def delete_own_holds (req : BookingRequest) (s : ServiceStore) : ServiceStore :=
  let remaining := s.booking_holds.filter
    (fun h => decide (¬ (h.owner_user_id = req.user_id ∧ h.provider_id = req.provider_id ∧
      h.booking_date = req.booking_date ∧ h.time_slot = req.time_slot)))
  { s with booking_holds := remaining }

/-- `create_booking`: provider existence, ensure day, purge expired holds,
slot existence, cutoff, delete the requester's own hold on the exact slot,
re-check blocking, then insert the booking (status "requested") and one
history entry `none -> requested`.  A raise inside the main transaction rolls
it back, so every error after the separately-committed `ensure_availability`
leaves exactly that store. -/
def create_booking (req : BookingRequest) (now : Int)
    (new_booking_id new_history_id : String) (s : ServiceStore) :
    Except StoreErr Booking × ServiceStore :=
  if ¬ provider_exists s req.provider_id then
    (.error (.notFound "Provider not found"), s)
  else
    let s1 := ensure_availability req.provider_id req.booking_date 1 s
    let s2 := cleanup_expired_holds now s1
    if ¬ slot_exists s2 req.provider_id req.booking_date req.time_slot then
      (.error (.validation "Time slot not available"), s1)
    else if slot_start req.booking_date req.time_slot - now < cutoff_seconds then
      (.error (.validation "Booking cutoff applies for this slot"), s1)
    else
      let s3 := delete_own_holds req s2
      match slot_is_blocked s3 req.provider_id req.booking_date req.time_slot none with
      | some reason => (.error (.conflict ("Time slot unavailable (" ++ reason ++ ")")), s1)
      | none =>
        let b : Booking :=
          ⟨new_booking_id, req.user_id, req.provider_id, req.pet_name,
            req.booking_date, req.time_slot, req.note, "requested"⟩
        let e : BookingStatusHistory :=
          ⟨new_history_id, new_booking_id, req.user_id, "none", "requested",
            "booking requested", now⟩
        (.ok b, { s3 with bookings := s3.bookings ++ [b],
                          booking_status_history := s3.booking_status_history ++ [e] })

/-- `BookingHoldRequest` (pydantic model). -/
structure BookingHoldRequest where
  user_id : String
  provider_id : String
  booking_date : Int
  time_slot : Nat
deriving DecidableEq, Repr

/-- `create_booking_hold`: provider existence, ensure day, purge expired
holds, slot existence, cutoff, blocking check, then insert a hold with
`expires_at = now + ttl_minutes`. -/
def create_booking_hold (req : BookingHoldRequest) (ttl_minutes : Int) (now : Int)
    (new_hold_id : String) (s : ServiceStore) :
    Except StoreErr BookingHold × ServiceStore :=
  if ¬ provider_exists s req.provider_id then
    (.error (.notFound "Provider not found"), s)
  else
    let s1 := ensure_availability req.provider_id req.booking_date 1 s
    let s2 := cleanup_expired_holds now s1
    if ¬ slot_exists s2 req.provider_id req.booking_date req.time_slot then
      (.error (.validation "Time slot not available"), s1)
    else if slot_start req.booking_date req.time_slot - now < cutoff_seconds then
      (.error (.validation "Booking cutoff applies for this slot"), s1)
    else
      match slot_is_blocked s2 req.provider_id req.booking_date req.time_slot none with
      | some reason => (.error (.conflict ("Time slot unavailable (" ++ reason ++ ")")), s1)
      | none =>
        let h : BookingHold :=
          ⟨new_hold_id, req.user_id, req.provider_id, req.booking_date, req.time_slot,
            now + ttl_minutes * 60, now⟩
        (.ok h, { s2 with booking_holds := s2.booking_holds ++ [h] })

/-- `BookingStatusUpdateRequest` (pydantic model; `note` defaults to `""`). -/
structure BookingStatusUpdateRequest where
  actor_user_id : String
  status : String
  note : String
deriving DecidableEq, Repr

/-- The `allowed_transitions` table of `update_booking_status`. -/
def allowed_transitions (current : String) : List String :=
  if current = "requested" then
    ["provider_confirmed", "provider_declined", "cancelled_by_owner"]
  else if current = "provider_confirmed" then
    ["in_progress", "cancelled_by_owner", "cancelled_by_provider", "reschedule_requested"]
  else if current = "in_progress" then
    ["completed", "cancelled_by_provider"]
  else if current = "reschedule_requested" then
    ["rescheduled", "cancelled_by_owner", "cancelled_by_provider"]
  else if current = "rescheduled" then
    ["provider_confirmed", "cancelled_by_owner", "cancelled_by_provider"]
  else
    []

/-- `SELECT user_id FROM provider_owners WHERE provider_id = ?`, with the
source's fallback to `""` when no owner row exists. -/
def provider_owner_user_id (s : ServiceStore) (provider_id : String) : String :=
  match s.provider_owners.find? (fun po => decide (po.1 = provider_id)) with
  | some po => po.2
  | none => ""

/-- `update_booking_status`: NotFound, terminal Conflict, transition-table
Validation, actor Permission checks, then `UPDATE bookings SET status, note`
(Python `update.note or row.note`: an empty note keeps the old one) plus one
appended history entry. -/
def update_booking_status (booking_id : String) (upd : BookingStatusUpdateRequest)
    (now : Int) (new_history_id : String) (s : ServiceStore) :
    Except StoreErr Booking × ServiceStore :=
  match s.bookings.find? (fun b => decide (b.id = booking_id)) with
  | none => (.error (.notFound "Booking not found"), s)
  | some row =>
    if row.status ∈ BOOKING_TERMINAL_STATUSES then
      (.error (.conflict "Booking is already terminal"), s)
    else if upd.status ∉ allowed_transitions row.status then
      (.error (.validation ("Invalid status transition: " ++ row.status ++ " -> " ++ upd.status)), s)
    else
      let provider_user_id := provider_owner_user_id s row.provider_id
      if upd.status ∈ ["provider_confirmed", "provider_declined", "in_progress",
            "completed", "cancelled_by_provider"] ∧ upd.actor_user_id ≠ provider_user_id then
        (.error (.permission "Only provider can apply this status"), s)
      else if upd.status ∈ ["cancelled_by_owner", "reschedule_requested"] ∧
          upd.actor_user_id ≠ row.owner_user_id then
        (.error (.permission "Only owner can apply this status"), s)
      else if upd.status = "rescheduled" ∧ upd.actor_user_id ≠ provider_user_id then
        (.error (.permission "Only provider can finalize reschedule"), s)
      else
        let new_note := if upd.note = "" then row.note else upd.note
        let updated_row := { row with status := upd.status, note := new_note }
        let new_bookings := s.bookings.map
          (fun b => if b.id = booking_id then { b with status := upd.status, note := new_note } else b)
        let e : BookingStatusHistory :=
          ⟨new_history_id, booking_id, upd.actor_user_id, row.status, upd.status, upd.note, now⟩
        (.ok updated_row,
          { s with bookings := new_bookings,
                   booking_status_history := s.booking_status_history ++ [e] })

/-- `cancel_provider`: owner-only; sets the provider's status to "cancelled"
and bulk-updates every booking of that provider whose status is in
('requested', 'provider_confirmed', 'in_progress', 'reschedule_requested',
'rescheduled') to 'cancelled_by_provider', appending no history. -/
def cancel_provider (provider_id : String) (actor_user_id : String) (s : ServiceStore) :
    Except StoreErr Unit × ServiceStore :=
  if ¬ s.providers.any (fun p => decide (p.1 = provider_id)) then
    (.error (.notFound "Provider not found"), s)
  else
    match s.provider_owners.find? (fun po => decide (po.1 = provider_id)) with
    | none => (.error (.notFound "Provider owner not found"), s)
    | some owner =>
      if owner.2 ≠ actor_user_id then
        (.error (.permission "Only provider owner can cancel listing"), s)
      else
        let new_providers := s.providers.map
          (fun p => if p.1 = provider_id then (p.1, "cancelled") else p)
        let new_bookings := s.bookings.map
          (fun b =>
            if b.provider_id = provider_id ∧
                b.status ∈ ["requested", "provider_confirmed", "in_progress",
                  "reschedule_requested", "rescheduled"] then
              { b with status := "cancelled_by_provider" }
            else b)
        (.ok (), { s with providers := new_providers, bookings := new_bookings })

/-- `ProviderBlackoutRequest` (pydantic model). -/
structure ProviderBlackoutRequest where
  actor_user_id : String
  slot_date : Int
  time_slot : Nat
  reason : String
deriving DecidableEq, Repr

/-- `create_provider_blackout`: owner lookup (NotFound), Permission check,
duplicate-blackout Conflict, then insert the blackout row; no other table is
touched. -/
def create_provider_blackout (provider_id : String) (req : ProviderBlackoutRequest)
    (now : Int) (new_blackout_id : String) (s : ServiceStore) :
    Except StoreErr ProviderBlackout × ServiceStore :=
  match s.provider_owners.find? (fun po => decide (po.1 = provider_id)) with
  | none => (.error (.notFound "Provider owner not found"), s)
  | some owner =>
    if owner.2 ≠ req.actor_user_id then
      (.error (.permission "Only provider owner can create blackout"), s)
    else if s.provider_blackout_slots.any
        (fun b => decide (b.provider_id = provider_id ∧ b.slot_date = req.slot_date ∧
          b.time_slot = req.time_slot)) then
      (.error (.conflict "Blackout already exists"), s)
    else
      let b : ProviderBlackout :=
        ⟨new_blackout_id, provider_id, req.slot_date, req.time_slot, req.reason,
          req.actor_user_id, now⟩
      (.ok b, { s with provider_blackout_slots := s.provider_blackout_slots ++ [b] })

/-- The derived-status computation of `_refresh_quote_request_status`. -/
def quote_request_next_status (statuses : List String) : String :=
  if statuses.isEmpty then "closed"
  else if statuses.any (fun st => decide (st = "accepted" ∨ st = "declined")) then
    if statuses.all (fun st => decide (st = "declined")) then "closed" else "responded"
  else "pending"

/-- `_refresh_quote_request_status`: recompute the parent request's status
from its targets' statuses and stamp `updated_at`. -/
def refresh_quote_request_status (quote_request_id : String) (now : Int)
    (s : ServiceStore) : ServiceStore :=
  let statuses := (s.quote_request_targets.filter
    (fun t => decide (t.quote_request_id = quote_request_id))).map (fun t => t.status)
  let new_requests := s.quote_requests.map
    (fun r =>
      if r.id = quote_request_id then
        { r with status := quote_request_next_status statuses, updated_at := now }
      else r)
  { s with quote_requests := new_requests }

/-- `respond_quote_request`: decision Validation, request/target NotFound,
owner Permission, already-responded Conflict; then set the target's status,
response message and `responded_at`, and refresh the parent request. -/
def respond_quote_request (quote_request_id : String) (provider_id : String)
    (actor_user_id : String) (decision : String) (message : String) (now : Int)
    (s : ServiceStore) :
    Except StoreErr (QuoteRequestRow × List QuoteTargetRow) × ServiceStore :=
  if decision ∉ ["accepted", "declined"] then
    (.error (.validation "Invalid decision. Allowed: accepted, declined"), s)
  else
    match s.quote_requests.find? (fun r => decide (r.id = quote_request_id)) with
    | none => (.error (.notFound "Quote request not found"), s)
    | some _ =>
      match s.quote_request_targets.find?
          (fun t => decide (t.quote_request_id = quote_request_id ∧ t.provider_id = provider_id)) with
      | none => (.error (.notFound "Quote target not found"), s)
      | some target =>
        if target.owner_user_id ≠ actor_user_id then
          (.error (.permission "Only listing owner can respond to this quote"), s)
        else if target.status ∈ ["accepted", "declined"] then
          (.error (.conflict "Quote target already responded"), s)
        else
          let new_targets := s.quote_request_targets.map
            (fun t =>
              if t.quote_request_id = quote_request_id ∧ t.provider_id = provider_id then
                { t with status := decision, response_message := message.trim,
                         responded_at := some now }
              else t)
          let s1 := { s with quote_request_targets := new_targets }
          let s2 := refresh_quote_request_status quote_request_id now s1
          match s2.quote_requests.find? (fun r => decide (r.id = quote_request_id)) with
          | none => (.error (.notFound "Quote request not found after response"), s2)
          | some updated =>
            (.ok (updated,
              s2.quote_request_targets.filter
                (fun t => decide (t.quote_request_id = quote_request_id))), s2)

/-- One reminder descriptor returned by `dispatch_quote_reminders`
(`provider_name` is looked up by the join and irrelevant to the claims). -/
structure QuoteReminder where
  quote_request_id : String
  provider_id : String
  owner_user_id : String
  elapsed_minutes : Int
  tier : String
deriving DecidableEq, Repr

/-- `int(max(0, (now - created_at).total_seconds() // 60))`. -/
def elapsed_minutes (now created_at : Int) : Int :=
  max 0 ((now - created_at).fdiv 60)

/-- The reminder a single snapshot row produces, when any: the 60-minute tier
when `elapsed >= 60` and its flag is unset, else the 15-minute tier when
`elapsed >= 15` and its flag is unset. -/
def row_reminder (now : Int) (row : QuoteTargetRow) : Option QuoteReminder :=
  let elapsed := elapsed_minutes now row.created_at
  if 60 ≤ elapsed ∧ row.reminder_60_sent = false then
    some ⟨row.quote_request_id, row.provider_id, row.owner_user_id, elapsed, "60m"⟩
  else if 15 ≤ elapsed ∧ row.reminder_15_sent = false then
    some ⟨row.quote_request_id, row.provider_id, row.owner_user_id, elapsed, "15m"⟩
  else
    none

/-- The flag `UPDATE` a processed row issues, applied to every stored target
with the row's (quote_request_id, provider_id) key: the 60-minute branch sets
both flags, the 15-minute branch only the 15-minute flag. -/
def apply_row_update (now : Int) (row : QuoteTargetRow) (s : ServiceStore) : ServiceStore :=
  let elapsed := elapsed_minutes now row.created_at
  if 60 ≤ elapsed ∧ row.reminder_60_sent = false then
    let new_targets := s.quote_request_targets.map
      (fun t =>
        if t.quote_request_id = row.quote_request_id ∧ t.provider_id = row.provider_id then
          { t with reminder_60_sent := true, reminder_15_sent := true }
        else t)
    { s with quote_request_targets := new_targets }
  else if 15 ≤ elapsed ∧ row.reminder_15_sent = false then
    let new_targets := s.quote_request_targets.map
      (fun t =>
        if t.quote_request_id = row.quote_request_id ∧ t.provider_id = row.provider_id then
          { t with reminder_15_sent := true }
        else t)
    { s with quote_request_targets := new_targets }
  else s

/-- The snapshot `SELECT` of `dispatch_quote_reminders`: targets still pending
with no response timestamp, joined to an existing provider row. -/
def reminder_rows (s : ServiceStore) : List QuoteTargetRow :=
  s.quote_request_targets.filter
    (fun t => decide (t.status = "pending" ∧ t.responded_at = none ∧
      s.providers.any (fun p => decide (p.1 = t.provider_id)) = true))

/-- One iteration of the `dispatch_quote_reminders` loop: emit the row's
reminder (computed from the snapshot row) and apply its flag update to the
evolving store. -/
def dispatch_step (now : Int) (acc : List QuoteReminder × ServiceStore)
    (row : QuoteTargetRow) : List QuoteReminder × ServiceStore :=
  (acc.1 ++ (row_reminder now row).toList, apply_row_update now row acc.2)

/-- `dispatch_quote_reminders`: iterate the snapshot rows, emitting each row's
reminder (computed from the snapshot) and applying its flag update to the
store. -/
def dispatch_quote_reminders (now : Int) (s : ServiceStore) :
    List QuoteReminder × ServiceStore :=
  (reminder_rows s).foldl (dispatch_step now) ([], s)

/-- One opportunistic invocation inside a polling sequence. -/
def dispatch_many_step (acc : List QuoteReminder × ServiceStore) (t : Int) :
    List QuoteReminder × ServiceStore :=
  let r := dispatch_quote_reminders t acc.2
  (acc.1 ++ r.1, r.2)

/-- Repeated opportunistic invocations of `dispatch_quote_reminders` at a
sequence of times, accumulating every emitted reminder. -/
def dispatch_many (times : List Int) (s : ServiceStore) :
    List QuoteReminder × ServiceStore :=
  times.foldl dispatch_many_step ([], s)

/-- Bool test for "this target belongs to quote request `q` and provider
`p`". -/
def keyb (q p : String) (t : QuoteTargetRow) : Bool :=
  decide (t.quote_request_id = q ∧ t.provider_id = p)

/-- How many reminders in `l` are for target (q, p) at the given tier. -/
def reminder_count (q p tier : String) (l : List QuoteReminder) : Nat :=
  l.countP (fun r => decide (r.quote_request_id = q ∧ r.provider_id = p ∧ r.tier = tier))

/-- Every stored target of key (q, p) has its 60-minute flag set. -/
def all_reminded_60 (q p : String) (s : ServiceStore) : Prop :=
  ∀ t ∈ s.quote_request_targets, t.quote_request_id = q → t.provider_id = p →
    t.reminder_60_sent = true

/-- Every stored target of key (q, p) has its 15-minute flag set. -/
def all_reminded_15 (q p : String) (s : ServiceStore) : Prop :=
  ∀ t ∈ s.quote_request_targets, t.quote_request_id = q → t.provider_id = p →
    t.reminder_15_sent = true

/-! ### Derived predicates used to state the claims -/

/-- A blackout row covers the slot. -/
def has_blackout (s : ServiceStore) (p : String) (d : Int) (t : Nat) : Prop :=
  ∃ b ∈ s.provider_blackout_slots, b.provider_id = p ∧ b.slot_date = d ∧ b.time_slot = t

/-- Some booking in a non-terminal (active) status occupies the slot. -/
def has_active_booking (s : ServiceStore) (p : String) (d : Int) (t : Nat) : Prop :=
  ∃ b ∈ s.bookings, b.provider_id = p ∧ b.booking_date = d ∧ b.time_slot = t ∧
    b.status ∈ BOOKING_ACTIVE_STATUSES

/-- Some hold row (live or stale) occupies the slot. -/
def has_hold_row (s : ServiceStore) (p : String) (d : Int) (t : Nat) : Prop :=
  ∃ h ∈ s.booking_holds, h.provider_id = p ∧ h.booking_date = d ∧ h.time_slot = t

/-- Some hold that has not yet expired at `now` occupies the slot. -/
def has_live_hold (s : ServiceStore) (now : Int) (p : String) (d : Int) (t : Nat) : Prop :=
  ∃ h ∈ s.booking_holds, h.provider_id = p ∧ h.booking_date = d ∧ h.time_slot = t ∧
    now < h.expires_at

/-- Every stored availability slot carries one of the five daily times.  This
holds in every reachable store because `ensure_availability` is the only
writer of `availability_slots`. -/
def slots_well_formed (s : ServiceStore) : Prop :=
  ∀ r ∈ s.availability_slots, r.time_slot ∈ daily_slot_times

/-- The QuoteRequest status projection as the specification words it:
"closed" when there are no targets or all targets are declined, "responded"
when at least one target has left "pending" and not all targets are declined,
otherwise "pending". -/
def spec_quote_status (statuses : List String) : String :=
  if statuses = [] ∨ statuses.all (fun st => decide (st = "declined")) then "closed"
  else if statuses.any (fun st => decide (st ≠ "pending")) then "responded"
  else "pending"

/-! ### Concrete stores used by witnesses and counterexamples

All times below are seconds; day 1 slot 660 ("11:00") starts at
`1 * 86400 + 660 * 60 = 126000`. -/

/-- One provider "p1" (active) owned by "own1"; every table empty. -/
def base_store : ServiceStore :=
  ⟨[("p1", "active")], [("p1", "own1")], [], [], [], [], [], [], []⟩

/-- The five generated day-1 slot rows for "p1". -/
def day1_slots : List AvailabilitySlotRow :=
  [⟨"p1", 1, 540, false⟩, ⟨"p1", 1, 660, false⟩, ⟨"p1", 1, 840, false⟩,
   ⟨"p1", 1, 960, false⟩, ⟨"p1", 1, 1080, false⟩]

/-- The hold `create_booking_hold ⟨"alice", "p1", 1, 660⟩ 15 118500 "h1"`
creates: it expires at `118500 + 15 * 60 = 119400`. -/
def hold1 : BookingHold := ⟨"h1", "alice", "p1", 1, 660, 119400, 118500⟩

/-- The store `create_booking_hold ⟨"alice", "p1", 1, 660⟩ 15 118500 "h1"
base_store` leaves behind (125 minutes before the slot start, so outside the
two-hour cutoff). -/
def hold_store : ServiceStore :=
  ⟨[("p1", "active")], [("p1", "own1")], day1_slots, [], [hold1], [], [], [], []⟩

/-- A blackout on (p1, day 1, "11:00"). -/
def blackout1 : ProviderBlackout := ⟨"blk1", "p1", 1, 660, "maintenance", "own1", 0⟩

/-- Store with the day-1 slots and a blackout on slot 660. -/
def blackout_store : ServiceStore :=
  ⟨[("p1", "active")], [("p1", "own1")], day1_slots, [blackout1], [], [], [], [], []⟩

/-- A booking in status "requested". -/
def requested_booking : Booking := ⟨"b1", "alice", "p1", "Rex", 1, 660, "", "requested"⟩

/-- Store holding one booking in status "requested" for provider "p1". -/
def booked_store : ServiceStore :=
  ⟨[("p1", "active")], [("p1", "own1")], day1_slots, [], [], [requested_booking], [], [], []⟩

/-- The blackout row `create_provider_blackout "p1" ⟨"own1", 2, 540, "away"⟩ 0
"blk9" base_store` inserts. -/
def c9_blackout : ProviderBlackout := ⟨"blk9", "p1", 2, 540, "away", "own1", 0⟩

/-- The store that call leaves behind. -/
def c9_store : ServiceStore :=
  { base_store with provider_blackout_slots := [c9_blackout] }

/-- The store left by `create_booking ⟨"alice", "p1", "Rex", 1, 660, "pls"⟩
118560 "b1" "e1" hold_store`: the hold is consumed, the booking and one
history entry are inserted. -/
def c4_store : ServiceStore :=
  ⟨[("p1", "active")], [("p1", "own1")], day1_slots, [], [],
   [⟨"b1", "alice", "p1", "Rex", 1, 660, "pls", "requested"⟩],
   [⟨"e1", "b1", "alice", "none", "requested", "booking requested", 118560⟩], [], []⟩

/-- What `get_available_slots "p1" 1 …` answers at a read inside the two-hour
cutoff window of slots 540 and 660, when slot 660 is blocked (by a blackout or
a live hold) and the later slots are free. -/
def cutoff_answers : List AvailabilityAnswer :=
  [⟨1, 540, false, some "cutoff"⟩, ⟨1, 660, false, some "cutoff"⟩,
   ⟨1, 840, true, none⟩, ⟨1, 960, true, none⟩, ⟨1, 1080, true, none⟩]

/-- What `get_available_slots "p1" 1 0 blackout_store` answers: read far
before the day, only the blacked-out slot is unavailable. -/
def blackout_answers : List AvailabilityAnswer :=
  [⟨1, 540, true, none⟩, ⟨1, 660, false, some "blackout"⟩,
   ⟨1, 840, true, none⟩, ⟨1, 960, true, none⟩, ⟨1, 1080, true, none⟩]

/-- The hold `create_booking_hold ⟨"alice", "p1", 1, 660⟩ 15 100000 "h2"
base_store` creates: expires at `100900`, far before the slot's cutoff
window opens. -/
def hold2 : BookingHold := ⟨"h2", "alice", "p1", 1, 660, 100900, 100000⟩

/-- The store that call leaves behind. -/
def hold_store2 : ServiceStore :=
  ⟨[("p1", "active")], [("p1", "own1")], day1_slots, [], [hold2], [], [], [], []⟩

/-- `hold_store2` after the expired hold is purged at a later read. -/
def hold_store2_after : ServiceStore :=
  ⟨[("p1", "active")], [("p1", "own1")], day1_slots, [], [], [], [], [], []⟩

/-- What `get_available_slots "p1" 1 100500 hold_store2` answers: the held
slot reports "held", everything else is free. -/
def held_answers : List AvailabilityAnswer :=
  [⟨1, 540, true, none⟩, ⟨1, 660, false, some "held"⟩,
   ⟨1, 840, true, none⟩, ⟨1, 960, true, none⟩, ⟨1, 1080, true, none⟩]

/-- What `get_available_slots "p1" 1 101000 hold_store2` answers: the hold
expired at 100900, so every slot is free. -/
def free_answers : List AvailabilityAnswer :=
  [⟨1, 540, true, none⟩, ⟨1, 660, true, none⟩,
   ⟨1, 840, true, none⟩, ⟨1, 960, true, none⟩, ⟨1, 1080, true, none⟩]

/-- A quote request "qr1" from user "cust", fanned out to three targets. -/
def qreq1 : QuoteRequestRow :=
  ⟨"qr1", "cust", "grooming", "Newtown", "sat", "poodle", "", "pending", 0, 0⟩

/-- First target of "qr1" (provider p1, owner own1), untouched. -/
def qt1 : QuoteTargetRow := ⟨"t1", "qr1", "p1", "own1", "pending", "", 0, none, false, false⟩

/-- Second target of "qr1". -/
def qt2 : QuoteTargetRow := ⟨"t2", "qr1", "p2", "own2", "pending", "", 0, none, false, false⟩

/-- Third target of "qr1". -/
def qt3 : QuoteTargetRow := ⟨"t3", "qr1", "p3", "own3", "pending", "", 0, none, false, false⟩

/-- Store with the fresh quote request and its three pending targets. -/
def quote_store : ServiceStore := ⟨[], [], [], [], [], [], [], [qreq1], [qt1, qt2, qt3]⟩

/-- `qt1` after "own1" declines at time 10. -/
def qt1_declined : QuoteTargetRow :=
  ⟨"t1", "qr1", "p1", "own1", "declined", "no".trim, 0, some 10, false, false⟩

/-- The store after the first respond call (decline by own1). -/
def quote_store1 : ServiceStore :=
  ⟨[], [], [], [], [], [], [],
   [⟨"qr1", "cust", "grooming", "Newtown", "sat", "poodle", "", "responded", 0, 10⟩],
   [qt1_declined, qt2, qt3]⟩

/-- `qt2` after "own2" accepts at time 20. -/
def qt2_accepted : QuoteTargetRow :=
  ⟨"t2", "qr1", "p2", "own2", "accepted", "yes".trim, 0, some 20, false, false⟩

/-- The request row after the second respond call. -/
def qreq1_after2 : QuoteRequestRow :=
  ⟨"qr1", "cust", "grooming", "Newtown", "sat", "poodle", "", "responded", 0, 20⟩

/-- The store after the second respond call (accept by own2). -/
def quote_store2 : ServiceStore :=
  ⟨[], [], [], [], [], [], [], [qreq1_after2], [qt1_declined, qt2_accepted, qt3]⟩

/-- Store with the active provider "p1" and the single pending, unanswered
target `qt1`, used to exercise the reminder dispatcher. -/
def rem_store : ServiceStore :=
  ⟨[("p1", "active")], [("p1", "own1")], [], [], [], [], [], [qreq1], [qt1]⟩

/-! ### Helper lemmas -/

theorem foldl_preserve {α β γ : Type} (f : γ → β) (step : γ → α → γ)
    (hp : ∀ acc x, f (step acc x) = f acc) :
    ∀ (l : List α) (acc : γ), f (l.foldl step acc) = f acc := by
  intro l
  induction l with
  | nil => intro acc; rfl
  | cons x xs ih => intro acc; rw [List.foldl_cons, ih, hp]

theorem insert_slot_row_append (p : String) (d : Int) (acc : ServiceStore) (t : Nat) :
    ∃ extra, insert_slot_row p d acc t =
      { acc with availability_slots := acc.availability_slots ++ extra } := by
  unfold insert_slot_row
  split
  · exact ⟨[], by cases acc; simp⟩
  · exact ⟨[⟨p, d, t, false⟩], rfl⟩

theorem ensure_availability_append (p : String) (d0 : Int) (n : Nat) (s : ServiceStore) :
    ∃ extra, ensure_availability p d0 n s =
      { s with availability_slots := s.availability_slots ++ extra } := by
  unfold ensure_availability
  generalize List.range n = ds
  induction ds generalizing s with
  | nil => exact ⟨[], by cases s; simp⟩
  | cons d ds ih =>
    rw [List.foldl_cons]
    have hinner : ∃ extra, daily_slot_times.foldl (insert_slot_row p (d0 + ↑d)) s =
        { s with availability_slots := s.availability_slots ++ extra } := by
      generalize daily_slot_times = ts
      induction ts generalizing s with
      | nil => exact ⟨[], by cases s; simp⟩
      | cons t ts iht =>
        rw [List.foldl_cons]
        obtain ⟨e1, he1⟩ := insert_slot_row_append p (d0 + ↑d) s t
        obtain ⟨e2, he2⟩ := iht (insert_slot_row p (d0 + ↑d) s t)
        refine ⟨e1 ++ e2, ?_⟩
        rw [he2, he1]
        cases s
        simp
    obtain ⟨e1, he1⟩ := hinner
    obtain ⟨e2, he2⟩ := ih (daily_slot_times.foldl (insert_slot_row p (d0 + ↑d)) s)
    refine ⟨e1 ++ e2, ?_⟩
    rw [he2, he1]
    cases s
    simp

theorem mem_insert_slot_row {r : AvailabilitySlotRow} {p : String} {d : Int}
    {acc : ServiceStore} {t : Nat}
    (h : r ∈ (insert_slot_row p d acc t).availability_slots) :
    r ∈ acc.availability_slots ∨ r = ⟨p, d, t, false⟩ := by
  unfold insert_slot_row at h
  split at h
  · exact Or.inl h
  · rcases List.mem_append.1 h with h1 | h1
    · exact Or.inl h1
    · exact Or.inr (List.mem_singleton.1 h1)

theorem mem_fold_slots {r : AvailabilitySlotRow} {p : String} {d : Int} :
    ∀ (ts : List Nat) (acc : ServiceStore),
      r ∈ (ts.foldl (insert_slot_row p d) acc).availability_slots →
      r ∈ acc.availability_slots ∨ ∃ t ∈ ts, r = ⟨p, d, t, false⟩ := by
  intro ts
  induction ts with
  | nil => intro acc h; exact Or.inl h
  | cons t ts ih =>
    intro acc h
    rw [List.foldl_cons] at h
    rcases ih (insert_slot_row p d acc t) h with h1 | h1
    · rcases mem_insert_slot_row h1 with h2 | h2
      · exact Or.inl h2
      · exact Or.inr ⟨t, List.mem_cons_self t ts, h2⟩
    · obtain ⟨u, hu, he⟩ := h1
      exact Or.inr ⟨u, List.mem_cons_of_mem t hu, he⟩

theorem mem_ensure_slots {r : AvailabilitySlotRow} {p : String} {d0 : Int} {n : Nat}
    {s : ServiceStore}
    (h : r ∈ (ensure_availability p d0 n s).availability_slots) :
    r ∈ s.availability_slots ∨ ∃ d t, t ∈ daily_slot_times ∧ r = ⟨p, d, t, false⟩ := by
  unfold ensure_availability at h
  revert h
  generalize List.range n = ds
  induction ds generalizing s with
  | nil => intro h; exact Or.inl h
  | cons d ds ih =>
    intro h
    rw [List.foldl_cons] at h
    rcases ih h with h1 | h1
    · rcases mem_fold_slots daily_slot_times s h1 with h2 | h2
      · exact Or.inl h2
      · obtain ⟨t, ht, he⟩ := h2
        exact Or.inr ⟨d0 + ↑d, t, ht, he⟩
    · exact Or.inr h1

theorem slots_well_formed_ensure {p : String} {d0 : Int} {n : Nat} {s : ServiceStore}
    (hwf : slots_well_formed s) :
    slots_well_formed (ensure_availability p d0 n s) := by
  intro r hr
  rcases mem_ensure_slots hr with h | ⟨d, t, ht, he⟩
  · exact hwf r h
  · rw [he]; exact ht

theorem slot_exists_mono_insert {q : String} {e : Int} {u : Nat} {p : String} {d : Int}
    {acc : ServiceStore} {t : Nat} (h : slot_exists acc q e u = true) :
    slot_exists (insert_slot_row p d acc t) q e u = true := by
  unfold insert_slot_row
  split
  · exact h
  · unfold slot_exists at h ⊢
    rw [List.any_append, h, Bool.true_or]

theorem slot_exists_mono_fold {q : String} {e : Int} {u : Nat} {p : String} {d : Int} :
    ∀ (ts : List Nat) (acc : ServiceStore), slot_exists acc q e u = true →
      slot_exists (ts.foldl (insert_slot_row p d) acc) q e u = true := by
  intro ts
  induction ts with
  | nil => intro acc h; exact h
  | cons t ts ih =>
    intro acc h
    rw [List.foldl_cons]
    exact ih _ (slot_exists_mono_insert h)

theorem slot_exists_insert_self (p : String) (d : Int) (acc : ServiceStore) (t : Nat) :
    slot_exists (insert_slot_row p d acc t) p d t = true := by
  unfold insert_slot_row
  split
  · assumption
  · unfold slot_exists
    rw [List.any_append]
    simp

theorem slot_exists_fold_self {p : String} {d : Int} {t : Nat} :
    ∀ (ts : List Nat) (acc : ServiceStore), t ∈ ts →
      slot_exists (ts.foldl (insert_slot_row p d) acc) p d t = true := by
  intro ts
  induction ts with
  | nil => intro acc h; cases h
  | cons x xs ih =>
    intro acc h
    rw [List.foldl_cons]
    rcases List.mem_cons.1 h with h1 | h1
    · subst h1
      exact slot_exists_mono_fold xs _ (slot_exists_insert_self p d acc t)
    · exact ih _ h1

theorem ensure_one_eq (p : String) (d : Int) (s : ServiceStore) :
    ensure_availability p d 1 s = daily_slot_times.foldl (insert_slot_row p d) s := by
  unfold ensure_availability
  simp [List.range_succ]

theorem slot_exists_ensure_one {p : String} {d : Int} {t : Nat} (s : ServiceStore)
    (ht : t ∈ daily_slot_times) :
    slot_exists (ensure_availability p d 1 s) p d t = true := by
  rw [ensure_one_eq]
  exact slot_exists_fold_self daily_slot_times s ht

theorem slot_exists_mono_ensure {q : String} {e : Int} {u : Nat} {p : String} {d0 : Int}
    {n : Nat} {s : ServiceStore} (h : slot_exists s q e u = true) :
    slot_exists (ensure_availability p d0 n s) q e u = true := by
  obtain ⟨extra, he⟩ := ensure_availability_append p d0 n s
  rw [he]
  unfold slot_exists at h ⊢
  rw [List.any_append, h, Bool.true_or]

theorem slot_exists_eq_false_of_wf {s : ServiceStore} {p : String} {d : Int} {t : Nat}
    (hwf : slots_well_formed s) (ht : t ∉ daily_slot_times) :
    slot_exists s p d t = false := by
  rw [Bool.eq_false_iff]
  intro hc
  unfold slot_exists at hc
  rw [List.any_eq_true] at hc
  obtain ⟨r, hr, hdec⟩ := hc
  rw [decide_eq_true_eq] at hdec
  exact ht (hdec.2.2 ▸ hwf r hr)

theorem mem_cleanup_holds {h : BookingHold} {now : Int} {s : ServiceStore} :
    h ∈ (cleanup_expired_holds now s).booking_holds ↔
      h ∈ s.booking_holds ∧ now < h.expires_at := by
  unfold cleanup_expired_holds
  simp [List.mem_filter]

theorem any_blackout_iff {s : ServiceStore} {p : String} {d : Int} {t : Nat} :
    (s.provider_blackout_slots.any
      (fun b => decide (b.provider_id = p ∧ b.slot_date = d ∧ b.time_slot = t)) = true) ↔
    has_blackout s p d t := by
  unfold has_blackout
  simp [List.any_eq_true]

theorem any_booking_iff {s : ServiceStore} {p : String} {d : Int} {t : Nat} :
    (s.bookings.any
      (fun b => decide (b.provider_id = p ∧ b.booking_date = d ∧ b.time_slot = t ∧
        (none : Option String) ≠ some b.id ∧ b.status ∈ BOOKING_ACTIVE_STATUSES)) = true) ↔
    has_active_booking s p d t := by
  unfold has_active_booking
  simp [List.any_eq_true]

theorem any_hold_iff {s : ServiceStore} {p : String} {d : Int} {t : Nat} :
    (s.booking_holds.any
      (fun h => decide (h.provider_id = p ∧ h.booking_date = d ∧ h.time_slot = t)) = true) ↔
    has_hold_row s p d t := by
  unfold has_hold_row
  simp [List.any_eq_true]

theorem slot_is_blocked_of_blackout {s : ServiceStore} {p : String} {d : Int} {t : Nat}
    (ign : Option String) (hb : has_blackout s p d t) :
    slot_is_blocked s p d t ign = some "blackout" := by
  unfold slot_is_blocked
  rw [if_pos (any_blackout_iff.mpr hb)]

theorem slot_is_blocked_of_booked {s : ServiceStore} {p : String} {d : Int} {t : Nat}
    (hnb : ¬ has_blackout s p d t) (hbk : has_active_booking s p d t) :
    slot_is_blocked s p d t none = some "booked" := by
  unfold slot_is_blocked
  rw [if_neg (fun hc => hnb (any_blackout_iff.mp hc)),
    if_pos (any_booking_iff.mpr hbk)]

theorem slot_is_blocked_of_held {s : ServiceStore} {p : String} {d : Int} {t : Nat}
    (hnb : ¬ has_blackout s p d t) (hnbk : ¬ has_active_booking s p d t)
    (hh : has_hold_row s p d t) :
    slot_is_blocked s p d t none = some "held" := by
  unfold slot_is_blocked
  rw [if_neg (fun hc => hnb (any_blackout_iff.mp hc)),
    if_neg (fun hc => hnbk (any_booking_iff.mp hc)),
    if_pos (any_hold_iff.mpr hh)]

theorem slot_is_blocked_eq_none {s : ServiceStore} {p : String} {d : Int} {t : Nat}
    (hnb : ¬ has_blackout s p d t) (hnbk : ¬ has_active_booking s p d t)
    (hnh : ¬ has_hold_row s p d t) :
    slot_is_blocked s p d t none = none := by
  unfold slot_is_blocked
  rw [if_neg (fun hc => hnb (any_blackout_iff.mp hc)),
    if_neg (fun hc => hnbk (any_booking_iff.mp hc)),
    if_neg (fun hc => hnh (any_hold_iff.mp hc))]

theorem slot_is_blocked_isSome_of_hold {s : ServiceStore} {p : String} {d : Int} {t : Nat}
    (hh : has_hold_row s p d t) :
    ∃ r, slot_is_blocked s p d t none = some r := by
  by_cases hnb : has_blackout s p d t
  · exact ⟨"blackout", slot_is_blocked_of_blackout none hnb⟩
  · by_cases hnbk : has_active_booking s p d t
    · exact ⟨"booked", slot_is_blocked_of_booked hnb hnbk⟩
    · exact ⟨"held", slot_is_blocked_of_held hnb hnbk hh⟩

theorem of_slot_is_blocked_eq_none {s : ServiceStore} {p : String} {d : Int} {t : Nat}
    (h : slot_is_blocked s p d t none = none) :
    ¬ has_blackout s p d t ∧ ¬ has_active_booking s p d t ∧ ¬ has_hold_row s p d t := by
  refine ⟨fun hb => ?_, fun hbk => ?_, fun hh => ?_⟩
  · rw [slot_is_blocked_of_blackout none hb] at h; cases h
  · by_cases hnb : has_blackout s p d t
    · rw [slot_is_blocked_of_blackout none hnb] at h; cases h
    · rw [slot_is_blocked_of_booked hnb hbk] at h; cases h
  · obtain ⟨r, hr⟩ := slot_is_blocked_isSome_of_hold hh
    rw [hr] at h; cases h

/-! ### C9 -/

/-- C9: a successful `createBlackout` only appends the blackout record; every
pre-existing booking (and the status history) is left completely unchanged. -/
theorem blackout_creation_leaves_bookings_unchanged (provider_id : String)
    (req : ProviderBlackoutRequest) (now : Int) (new_id : String)
    (s : ServiceStore) (b : ProviderBlackout) (s2 : ServiceStore)
    (h : create_provider_blackout provider_id req now new_id s = (.ok b, s2)) :
    s2 = { s with provider_blackout_slots := s.provider_blackout_slots ++ [b] } ∧
    s2.bookings = s.bookings ∧
    s2.booking_status_history = s.booking_status_history := by
  unfold create_provider_blackout at h
  split at h
  · simp at h
  · split at h
    · simp at h
    · split at h
      · simp at h
      · simp only [Prod.mk.injEq, Except.ok.injEq] at h
        obtain ⟨hb, hs⟩ := h
        subst hb
        subst hs
        exact ⟨rfl, rfl, rfl⟩

/-- Witness for C9 at a concrete successful blackout creation. -/
theorem blackout_creation_leaves_bookings_unchanged_witness :
    c9_store = { base_store with
      provider_blackout_slots := base_store.provider_blackout_slots ++ [c9_blackout] } ∧
    c9_store.bookings = base_store.bookings ∧
    c9_store.booking_status_history = base_store.booking_status_history :=
  blackout_creation_leaves_bookings_unchanged "p1" ⟨"own1", 2, 540, "away"⟩ 0 "blk9"
    base_store c9_blackout c9_store rfl

/-! ### C10 -/

/-- C10: for an existing provider and any well-formed store, `createBooking`
and `createHold` on a time that is not one of the five daily slot times always
fail with the Validation error "Time slot not available", regardless of the
date, the current time, or anything else in the store. -/
theorem off_grid_time_always_validation
    (s : ServiceStore) (user provider pet note bid hid hid2 : String)
    (d : Int) (t : Nat) (now ttl : Int)
    (hprov : provider_exists s provider = true)
    (hwf : slots_well_formed s)
    (ht : t ∉ daily_slot_times) :
    create_booking ⟨user, provider, pet, d, t, note⟩ now bid hid s =
      (.error (.validation "Time slot not available"), ensure_availability provider d 1 s) ∧
    create_booking_hold ⟨user, provider, d, t⟩ ttl now hid2 s =
      (.error (.validation "Time slot not available"), ensure_availability provider d 1 s) := by
  have h1 : slots_well_formed (ensure_availability provider d 1 s) :=
    slots_well_formed_ensure hwf
  have h2 : slot_exists (cleanup_expired_holds now (ensure_availability provider d 1 s))
      provider d t = false :=
    slot_exists_eq_false_of_wf (fun r hr => h1 r hr) ht
  constructor
  · simp [create_booking, hprov, h2]
  · simp [create_booking_hold, hprov, h2]

/-- Witness for C10: booking and holding (p1, day 5, "10:00" = minute 600)
fail Validation even though day 5 is far in the future and nothing blocks. -/
theorem off_grid_time_always_validation_witness :
    create_booking ⟨"u", "p1", "Rex", 5, 600, ""⟩ 0 "b" "e" base_store =
      (.error (.validation "Time slot not available"), ensure_availability "p1" 5 1 base_store) ∧
    create_booking_hold ⟨"u", "p1", 5, 600⟩ 15 0 "h" base_store =
      (.error (.validation "Time slot not available"), ensure_availability "p1" 5 1 base_store) :=
  off_grid_time_always_validation base_store "u" "p1" "Rex" "" "b" "e" "h" 5 600 0 15
    (by decide) (by intro r hr; cases hr) (by decide)

/-! ### C3 -/

/-- C3 counterexample: `cancel_provider` moves a booking from "requested"
directly to "cancelled_by_provider", an edge absent from the §4.4 transition
table, succeeding rather than failing Validation. -/
theorem cancel_provider_escapes_transition_table :
    (cancel_provider "p1" "own1" booked_store).1 = .ok () ∧
    (cancel_provider "p1" "own1" booked_store).2.bookings =
      [{ requested_booking with status := "cancelled_by_provider" }] ∧
    requested_booking.status = "requested" ∧
    "cancelled_by_provider" ∉ allowed_transitions "requested" := by
  refine ⟨rfl, rfl, rfl, by decide⟩

/-- `delete_own_holds` touches only `booking_holds`. -/
theorem delete_own_holds_keeps_history (req : BookingRequest) (s : ServiceStore) :
    (delete_own_holds req s).booking_status_history = s.booking_status_history := rfl

/-- `cleanup_expired_holds` touches only `booking_holds`. -/
theorem cleanup_keeps_history (now : Int) (s : ServiceStore) :
    (cleanup_expired_holds now s).booking_status_history = s.booking_status_history := rfl

/-- Inversion of a successful `update_booking_status`: the booking was found,
was non-terminal, the transition is in the table, and the result is the
updated row plus exactly one appended history entry. -/
theorem update_booking_status_ok {booking_id : String} {upd : BookingStatusUpdateRequest}
    {now : Int} {hid : String} {s : ServiceStore} {bk : Booking} {s2 : ServiceStore}
    (h : update_booking_status booking_id upd now hid s = (.ok bk, s2)) :
    ∃ row, s.bookings.find? (fun b => decide (b.id = booking_id)) = some row ∧
      row.status ∉ BOOKING_TERMINAL_STATUSES ∧
      upd.status ∈ allowed_transitions row.status ∧
      bk = { row with status := upd.status,
                      note := if upd.note = "" then row.note else upd.note } ∧
      s2 = { s with
        bookings := s.bookings.map
          (fun b => if b.id = booking_id then
            { b with status := upd.status,
                     note := if upd.note = "" then row.note else upd.note }
            else b),
        booking_status_history := s.booking_status_history ++
          [⟨hid, booking_id, upd.actor_user_id, row.status, upd.status, upd.note, now⟩] } := by
  unfold update_booking_status at h
  split at h
  · simp at h
  rename_i row hrow
  refine ⟨row, hrow, ?_⟩
  by_cases hterm : row.status ∈ BOOKING_TERMINAL_STATUSES
  · rw [if_pos hterm] at h; simp at h
  rw [if_neg hterm] at h
  by_cases htrans : upd.status ∉ allowed_transitions row.status
  · rw [if_pos htrans] at h; simp at h
  rw [if_neg htrans] at h
  refine ⟨hterm, not_not.mp htrans, ?_⟩
  dsimp only at h
  split at h
  · simp at h
  split at h
  · simp at h
  split at h
  · simp at h
  simp only [Prod.mk.injEq, Except.ok.injEq] at h
  exact ⟨h.1.symm, h.2.symm⟩

/-- An attempted transition that is outside the table on a non-terminal
booking: Validation error, store unchanged. -/
theorem update_booking_status_offtable {booking_id : String}
    {upd : BookingStatusUpdateRequest} {now : Int} {hid : String} {s : ServiceStore}
    {row : Booking}
    (hrow : s.bookings.find? (fun b => decide (b.id = booking_id)) = some row)
    (hterm : row.status ∉ BOOKING_TERMINAL_STATUSES)
    (htrans : upd.status ∉ allowed_transitions row.status) :
    update_booking_status booking_id upd now hid s =
      (.error (.validation
        ("Invalid status transition: " ++ row.status ++ " -> " ++ upd.status)), s) := by
  unfold update_booking_status
  rw [hrow]
  dsimp only
  rw [if_neg hterm, if_pos htrans]

/-- An attempted transition on a terminal booking: Conflict, store unchanged. -/
theorem update_booking_status_terminal {booking_id : String}
    {upd : BookingStatusUpdateRequest} {now : Int} {hid : String} {s : ServiceStore}
    {row : Booking}
    (hrow : s.bookings.find? (fun b => decide (b.id = booking_id)) = some row)
    (hterm : row.status ∈ BOOKING_TERMINAL_STATUSES) :
    update_booking_status booking_id upd now hid s =
      (.error (.conflict "Booking is already terminal"), s) := by
  unfold update_booking_status
  rw [hrow]
  dsimp only
  rw [if_pos hterm]

/-- Inversion of a successful `cancel_provider`: its bulk booking update. -/
theorem cancel_provider_ok {pid actor : String} {s s2 : ServiceStore}
    (h : cancel_provider pid actor s = (.ok (), s2)) :
    s2.bookings = s.bookings.map
      (fun b =>
        if b.provider_id = pid ∧ b.status ∈ ["requested", "provider_confirmed",
            "in_progress", "reschedule_requested", "rescheduled"] then
          { b with status := "cancelled_by_provider" }
        else b) := by
  unfold cancel_provider at h
  split at h
  · simp at h
  split at h
  · simp at h
  split at h
  · simp at h
  simp only [Prod.mk.injEq] at h
  rw [← h.2]

/-- `cancel_provider` never touches the status history, whatever happens. -/
theorem cancel_provider_keeps_history (pid actor : String) (s : ServiceStore) :
    ((cancel_provider pid actor s).2).booking_status_history =
      s.booking_status_history := by
  unfold cancel_provider
  split
  · rfl
  split
  · rfl
  split
  · rfl
  rfl

/-- C3 (amended): `update_booking_status` changes a booking's status only
along an edge of the §4.4 table; an attempted off-table transition on a
non-terminal booking fails Validation and leaves the store (hence the status)
unchanged, while one on a terminal booking fails Conflict; but
`cancel_provider` additionally bulk-moves every active booking of the
provider straight to "cancelled_by_provider", including the off-table edge
requested -> cancelled_by_provider. -/
theorem status_transitions_follow_table (s : ServiceStore) (booking_id : String)
    (upd : BookingStatusUpdateRequest) (now : Int) (hid : String)
    (pid actor : String) :
    (∀ bk s2, update_booking_status booking_id upd now hid s = (.ok bk, s2) →
      ∃ row, s.bookings.find? (fun b => decide (b.id = booking_id)) = some row ∧
        row.status ∉ BOOKING_TERMINAL_STATUSES ∧
        upd.status ∈ allowed_transitions row.status ∧
        bk.status = upd.status) ∧
    (∀ row, s.bookings.find? (fun b => decide (b.id = booking_id)) = some row →
      row.status ∉ BOOKING_TERMINAL_STATUSES →
      upd.status ∉ allowed_transitions row.status →
      update_booking_status booking_id upd now hid s =
        (.error (.validation
          ("Invalid status transition: " ++ row.status ++ " -> " ++ upd.status)), s)) ∧
    (∀ row, s.bookings.find? (fun b => decide (b.id = booking_id)) = some row →
      row.status ∈ BOOKING_TERMINAL_STATUSES →
      update_booking_status booking_id upd now hid s =
        (.error (.conflict "Booking is already terminal"), s)) ∧
    (∀ s2, cancel_provider pid actor s = (.ok (), s2) →
      s2.bookings = s.bookings.map
        (fun b =>
          if b.provider_id = pid ∧ b.status ∈ ["requested", "provider_confirmed",
              "in_progress", "reschedule_requested", "rescheduled"] then
            { b with status := "cancelled_by_provider" }
          else b)) := by
  refine ⟨?_, ?_, ?_, ?_⟩
  · intro bk s2 h
    obtain ⟨row, hrow, hterm, htrans, hbk, _⟩ := update_booking_status_ok h
    exact ⟨row, hrow, hterm, htrans, by rw [hbk]⟩
  · intro row hrow hterm htrans
    exact update_booking_status_offtable hrow hterm htrans
  · intro row hrow hterm
    exact update_booking_status_terminal hrow hterm
  · intro s2 h
    exact cancel_provider_ok h

/-- Witness for C3 (amended): the off-table attempt requested -> completed on
a concrete store fails Validation and leaves the store unchanged. -/
theorem status_transitions_follow_table_witness :
    update_booking_status "b1" ⟨"own1", "completed", ""⟩ 0 "e" booked_store =
      (.error (.validation "Invalid status transition: requested -> completed"),
        booked_store) :=
  (status_transitions_follow_table booked_store "b1" ⟨"own1", "completed", ""⟩ 0 "e"
      "p1" "own1").2.1 requested_booking rfl (by decide) (by decide)

/-- C4 counterexample: a successful `cancel_provider` moves the stored
booking from "requested" to "cancelled_by_provider" yet appends no entry to
the status-history log — the log is empty before and still empty after — so
a status change occurred with no accompanying history record. -/
theorem cancel_provider_appends_no_history :
    (cancel_provider "p1" "own1" booked_store).1 = .ok () ∧
    (cancel_provider "p1" "own1" booked_store).2.bookings =
      [{ requested_booking with status := "cancelled_by_provider" }] ∧
    booked_store.booking_status_history = [] ∧
    (cancel_provider "p1" "own1" booked_store).2.booking_status_history = [] :=
  ⟨rfl, rfl, rfl, rfl⟩

/-- C4 (amended): `create_booking` and `update_booking_status` each append
exactly one status-history entry recording (booking, actor, from, to, note,
timestamp) on success, and both only ever append to the history (never mutate
or delete entries); but `cancel_provider` changes booking statuses while
appending no history entry at all. -/
theorem history_append_only (s : ServiceStore) (req : BookingRequest)
    (now : Int) (bid hid : String) (booking_id : String)
    (upd : BookingStatusUpdateRequest) (now2 : Int) (hid2 : String)
    (pid actor : String) :
    (∀ bk s2, create_booking req now bid hid s = (.ok bk, s2) →
      s2.booking_status_history = s.booking_status_history ++
        [⟨hid, bid, req.user_id, "none", "requested", "booking requested", now⟩]) ∧
    (∀ bk s2, update_booking_status booking_id upd now2 hid2 s = (.ok bk, s2) →
      ∃ row, s.bookings.find? (fun b => decide (b.id = booking_id)) = some row ∧
        s2.booking_status_history = s.booking_status_history ++
          [⟨hid2, booking_id, upd.actor_user_id, row.status, upd.status, upd.note, now2⟩]) ∧
    ((cancel_provider pid actor s).2.booking_status_history =
      s.booking_status_history) ∧
    (∃ tail, (create_booking req now bid hid s).2.booking_status_history =
      s.booking_status_history ++ tail) ∧
    (∃ tail, (update_booking_status booking_id upd now2 hid2 s).2.booking_status_history =
      s.booking_status_history ++ tail) := by
  have hens : ∀ p d, (ensure_availability p d 1 s).booking_status_history =
      s.booking_status_history := by
    intro p d
    obtain ⟨extra, he⟩ := ensure_availability_append p d 1 s
    rw [he]
  have hcreate : ∀ (x : Except StoreErr Booking) (s2 : ServiceStore),
      create_booking req now bid hid s = (x, s2) →
      (∀ bk, x = .ok bk →
        s2.booking_status_history = s.booking_status_history ++
          [⟨hid, bid, req.user_id, "none", "requested", "booking requested", now⟩]) ∧
      (∃ tail, s2.booking_status_history = s.booking_status_history ++ tail) := by
    intro x s2 h
    unfold create_booking at h
    split at h
    · simp only [Prod.mk.injEq] at h
      refine ⟨(fun bk hbk => by rw [← h.1] at hbk; cases hbk), [], ?_⟩
      rw [← h.2, List.append_nil]
    dsimp only at h
    split at h
    · simp only [Prod.mk.injEq] at h
      refine ⟨(fun bk hbk => by rw [← h.1] at hbk; cases hbk), [], ?_⟩
      rw [← h.2, List.append_nil]
      exact hens _ _
    split at h
    · simp only [Prod.mk.injEq] at h
      refine ⟨(fun bk hbk => by rw [← h.1] at hbk; cases hbk), [], ?_⟩
      rw [← h.2, List.append_nil]
      exact hens _ _
    split at h
    · simp only [Prod.mk.injEq] at h
      refine ⟨(fun bk hbk => by rw [← h.1] at hbk; cases hbk), [], ?_⟩
      rw [← h.2, List.append_nil]
      exact hens _ _
    · simp only [Prod.mk.injEq] at h
      have hh : s2.booking_status_history = s.booking_status_history ++
          [⟨hid, bid, req.user_id, "none", "requested", "booking requested", now⟩] := by
        rw [← h.2]
        dsimp only
        rw [delete_own_holds_keeps_history, cleanup_keeps_history, hens]
      exact ⟨fun bk hbk => hh, ⟨_, hh⟩⟩
  have hupdate : ∀ (x : Except StoreErr Booking) (s2 : ServiceStore),
      update_booking_status booking_id upd now2 hid2 s = (x, s2) →
      (∀ bk, x = .ok bk →
        ∃ row, s.bookings.find? (fun b => decide (b.id = booking_id)) = some row ∧
          s2.booking_status_history = s.booking_status_history ++
            [⟨hid2, booking_id, upd.actor_user_id, row.status, upd.status, upd.note, now2⟩]) ∧
      (∃ tail, s2.booking_status_history = s.booking_status_history ++ tail) := by
    intro x s2 h
    unfold update_booking_status at h
    split at h
    · simp only [Prod.mk.injEq] at h
      refine ⟨(fun bk hbk => by rw [← h.1] at hbk; cases hbk), [], ?_⟩
      rw [← h.2, List.append_nil]
    rename_i row hrow
    split at h
    · simp only [Prod.mk.injEq] at h
      refine ⟨(fun bk hbk => by rw [← h.1] at hbk; cases hbk), [], ?_⟩
      rw [← h.2, List.append_nil]
    split at h
    · simp only [Prod.mk.injEq] at h
      refine ⟨(fun bk hbk => by rw [← h.1] at hbk; cases hbk), [], ?_⟩
      rw [← h.2, List.append_nil]
    dsimp only at h
    split at h
    · simp only [Prod.mk.injEq] at h
      refine ⟨(fun bk hbk => by rw [← h.1] at hbk; cases hbk), [], ?_⟩
      rw [← h.2, List.append_nil]
    split at h
    · simp only [Prod.mk.injEq] at h
      refine ⟨(fun bk hbk => by rw [← h.1] at hbk; cases hbk), [], ?_⟩
      rw [← h.2, List.append_nil]
    split at h
    · simp only [Prod.mk.injEq] at h
      refine ⟨(fun bk hbk => by rw [← h.1] at hbk; cases hbk), [], ?_⟩
      rw [← h.2, List.append_nil]
    · simp only [Prod.mk.injEq] at h
      have hh : s2.booking_status_history = s.booking_status_history ++
          [⟨hid2, booking_id, upd.actor_user_id, row.status, upd.status, upd.note, now2⟩] := by
        rw [← h.2]
      exact ⟨fun bk hbk => ⟨row, hrow, hh⟩, ⟨_, hh⟩⟩
  refine ⟨?_, ?_, cancel_provider_keeps_history pid actor s, ?_, ?_⟩
  · intro bk s2 h
    exact (hcreate (.ok bk) s2 h).1 bk rfl
  · intro bk s2 h
    exact (hupdate (.ok bk) s2 h).1 bk rfl
  · exact (hcreate (create_booking req now bid hid s).1
      (create_booking req now bid hid s).2 rfl).2
  · exact (hupdate (update_booking_status booking_id upd now2 hid2 s).1
      (update_booking_status booking_id upd now2 hid2 s).2 rfl).2

set_option maxHeartbeats 1000000 in
/-- Witness for C4 (amended): a concrete successful `create_booking` appends
exactly the `none -> requested` entry. -/
theorem history_append_only_witness :
    c4_store.booking_status_history = hold_store.booking_status_history ++
      [⟨"e1", "b1", "alice", "none", "requested", "booking requested", 118560⟩] :=
  (history_append_only hold_store ⟨"alice", "p1", "Rex", 1, 660, "pls"⟩ 118560 "b1" "e1"
      "b1" ⟨"own1", "completed", ""⟩ 0 "e" "p1" "own1").1
    ⟨"b1", "alice", "p1", "Rex", 1, 660, "pls", "requested"⟩ c4_store (by decide)

/-- `has_blackout` only reads the blackout table. -/
theorem has_blackout_congr {s s2 : ServiceStore}
    (h : s.provider_blackout_slots = s2.provider_blackout_slots)
    (p : String) (d : Int) (t : Nat) :
    has_blackout s p d t ↔ has_blackout s2 p d t := by
  unfold has_blackout
  rw [h]

/-- `has_active_booking` only reads the bookings table. -/
theorem has_active_booking_congr {s s2 : ServiceStore}
    (h : s.bookings = s2.bookings) (p : String) (d : Int) (t : Nat) :
    has_active_booking s p d t ↔ has_active_booking s2 p d t := by
  unfold has_active_booking
  rw [h]

/-- After the lazy purge, a hold row remains exactly when a live hold was
there. -/
theorem has_hold_row_cleanup {now : Int} {s : ServiceStore} {p : String} {d : Int}
    {t : Nat} :
    has_hold_row (cleanup_expired_holds now s) p d t ↔ has_live_hold s now p d t := by
  unfold has_hold_row has_live_hold cleanup_expired_holds
  constructor
  · rintro ⟨h, hmem, h1, h2, h3⟩
    obtain ⟨hm, hlt⟩ := List.mem_filter.mp hmem
    exact ⟨h, hm, h1, h2, h3, of_decide_eq_true hlt⟩
  · rintro ⟨h, hm, h1, h2, h3, hlt⟩
    exact ⟨h, List.mem_filter.mpr ⟨hm, decide_eq_true hlt⟩, h1, h2, h3⟩

/-- `ensure_availability` keeps the blackout table. -/
theorem ensure_keeps_blackouts (p : String) (d0 : Int) (n : Nat) (s : ServiceStore) :
    (ensure_availability p d0 n s).provider_blackout_slots = s.provider_blackout_slots := by
  obtain ⟨extra, he⟩ := ensure_availability_append p d0 n s
  rw [he]

/-- `ensure_availability` keeps the bookings table. -/
theorem ensure_keeps_bookings (p : String) (d0 : Int) (n : Nat) (s : ServiceStore) :
    (ensure_availability p d0 n s).bookings = s.bookings := by
  obtain ⟨extra, he⟩ := ensure_availability_append p d0 n s
  rw [he]

/-- `ensure_availability` keeps the holds table. -/
theorem ensure_keeps_holds (p : String) (d0 : Int) (n : Nat) (s : ServiceStore) :
    (ensure_availability p d0 n s).booking_holds = s.booking_holds := by
  obtain ⟨extra, he⟩ := ensure_availability_append p d0 n s
  rw [he]

/-! ### C2 -/

/-- C2 counterexample: at a read inside the cutoff window, the slot with a
blackout is reported with reason "cutoff", not "blackout". -/
theorem blackout_reason_lost_to_cutoff :
    has_blackout blackout_store "p1" 1 660 ∧
    (get_available_slots "p1" 1 119100 blackout_store).1 = .ok cutoff_answers ∧
    (∀ a ∈ cutoff_answers, a.time_slot = 660 →
      a.available = false ∧ a.reason = some "cutoff" ∧ a.reason ≠ some "blackout") := by
  refine ⟨⟨blackout1, by decide, rfl, rfl, rfl⟩, by decide, by decide⟩

/-- C2 (amended): `getAvailableSlots` decides each slot's reason in the
priority order cutoff, then blackout, then booked, then held: a slot starting
within two hours is always reported "cutoff", even when a blackout (or
booking, or hold) also applies; only outside the cutoff does blackout win over
booked, booked over held, and a slot with none of the three is available. -/
theorem availability_reason_priority (p : String) (d now : Int) (s : ServiceStore)
    (out : List AvailabilityAnswer) (s2 : ServiceStore) (a : AvailabilityAnswer)
    (h : get_available_slots p d now s = (.ok out, s2)) (ha : a ∈ out) :
    (slot_start a.slot_date a.time_slot - now < cutoff_seconds →
       a.available = false ∧ a.reason = some "cutoff") ∧
    (cutoff_seconds ≤ slot_start a.slot_date a.time_slot - now →
       (has_blackout s p a.slot_date a.time_slot →
          a.available = false ∧ a.reason = some "blackout") ∧
       (¬ has_blackout s p a.slot_date a.time_slot →
        has_active_booking s p a.slot_date a.time_slot →
          a.available = false ∧ a.reason = some "booked") ∧
       (¬ has_blackout s p a.slot_date a.time_slot →
        ¬ has_active_booking s p a.slot_date a.time_slot →
        has_live_hold s now p a.slot_date a.time_slot →
          a.available = false ∧ a.reason = some "held") ∧
       (¬ has_blackout s p a.slot_date a.time_slot →
        ¬ has_active_booking s p a.slot_date a.time_slot →
        ¬ has_live_hold s now p a.slot_date a.time_slot →
          a.available = true ∧ a.reason = none)) := by
  unfold get_available_slots at h
  split at h
  · simp at h
  dsimp only at h
  simp only [Prod.mk.injEq, Except.ok.injEq] at h
  obtain ⟨hout, hs2⟩ := h
  rw [← hout] at ha
  obtain ⟨row, hrow, hae⟩ := List.mem_map.mp ha
  obtain ⟨hrow_mem, hpred⟩ := List.mem_filter.mp hrow
  rw [decide_eq_true_eq] at hpred
  have hbl : has_blackout
      (cleanup_expired_holds now (ensure_availability p d 1 s)) p row.slot_date row.time_slot ↔
      has_blackout s p row.slot_date row.time_slot :=
    has_blackout_congr (ensure_keeps_blackouts p d 1 s) p row.slot_date row.time_slot
  have hbk : has_active_booking
      (cleanup_expired_holds now (ensure_availability p d 1 s)) p row.slot_date row.time_slot ↔
      has_active_booking s p row.slot_date row.time_slot :=
    has_active_booking_congr (ensure_keeps_bookings p d 1 s) p row.slot_date row.time_slot
  have hhd : has_hold_row
      (cleanup_expired_holds now (ensure_availability p d 1 s)) p row.slot_date row.time_slot ↔
      has_live_hold s now p row.slot_date row.time_slot := by
    rw [has_hold_row_cleanup]
    unfold has_live_hold
    rw [ensure_keeps_holds p d 1 s]
  unfold evaluate_slot at hae
  dsimp only at hae
  rw [hpred.1] at hae
  by_cases hcut : slot_start row.slot_date row.time_slot - now < cutoff_seconds
  · rw [if_pos hcut] at hae
    rw [← hae]
    refine ⟨fun _ => ⟨rfl, rfl⟩, fun hc => absurd hcut (not_lt.mpr hc)⟩
  · rw [if_neg hcut] at hae
    rw [← hae]
    dsimp only
    refine ⟨fun hc => absurd hc hcut, fun _ => ⟨?_, ?_, ?_, ?_⟩⟩
    · intro hb
      rw [slot_is_blocked_of_blackout none (hbl.mpr hb)]
      exact ⟨rfl, rfl⟩
    · intro hnb hb
      rw [slot_is_blocked_of_booked (fun hc => hnb (hbl.mp hc)) (hbk.mpr hb)]
      exact ⟨rfl, rfl⟩
    · intro hnb hnbk hh
      rw [slot_is_blocked_of_held (fun hc => hnb (hbl.mp hc))
        (fun hc => hnbk (hbk.mp hc)) (hhd.mpr hh)]
      exact ⟨rfl, rfl⟩
    · intro hnb hnbk hnh
      rw [slot_is_blocked_eq_none (fun hc => hnb (hbl.mp hc))
        (fun hc => hnbk (hbk.mp hc)) (fun hc => hnh (hhd.mp hc))]
      exact ⟨rfl, rfl⟩

/-- Witness for C2 (amended): outside the cutoff the blacked-out slot is
reported with reason "blackout". -/
theorem availability_reason_priority_witness :
    (⟨1, 660, false, some "blackout"⟩ : AvailabilityAnswer).available = false ∧
    (⟨1, 660, false, some "blackout"⟩ : AvailabilityAnswer).reason = some "blackout" :=
  ((availability_reason_priority "p1" 1 0 blackout_store blackout_answers blackout_store
      ⟨1, 660, false, some "blackout"⟩ (by decide) (by decide)).2 (by decide)).1
    ⟨blackout1, by decide, rfl, rfl, rfl⟩

/-- `has_live_hold` only reads the holds table. -/
theorem has_live_hold_congr {s s2 : ServiceStore}
    (h : s.booking_holds = s2.booking_holds) (now : Int) (p : String) (d : Int) (t : Nat) :
    has_live_hold s now p d t ↔ has_live_hold s2 now p d t := by
  unfold has_live_hold
  rw [h]

/-- Both branches of `evaluate_slot` copy the row's date. -/
theorem evaluate_slot_date (s : ServiceStore) (now : Int) (row : AvailabilitySlotRow) :
    (evaluate_slot s now row).slot_date = row.slot_date := by
  unfold evaluate_slot
  split <;> rfl

/-- Both branches of `evaluate_slot` copy the row's time. -/
theorem evaluate_slot_time (s : ServiceStore) (now : Int) (row : AvailabilitySlotRow) :
    (evaluate_slot s now row).time_slot = row.time_slot := by
  unfold evaluate_slot
  split <;> rfl

/-- Inversion of a successful `create_booking_hold`: every guard passed and
the result is the fresh hold appended to the purged store. -/
theorem create_booking_hold_ok {req : BookingHoldRequest} {ttl now : Int}
    {hid : String} {s : ServiceStore} {h : BookingHold} {s2 : ServiceStore}
    (hok : create_booking_hold req ttl now hid s = (.ok h, s2)) :
    provider_exists s req.provider_id = true ∧
    slot_exists (cleanup_expired_holds now (ensure_availability req.provider_id req.booking_date 1 s))
      req.provider_id req.booking_date req.time_slot = true ∧
    ¬ (slot_start req.booking_date req.time_slot - now < cutoff_seconds) ∧
    slot_is_blocked (cleanup_expired_holds now (ensure_availability req.provider_id req.booking_date 1 s))
      req.provider_id req.booking_date req.time_slot none = none ∧
    h = ⟨hid, req.user_id, req.provider_id, req.booking_date, req.time_slot,
      now + ttl * 60, now⟩ ∧
    s2 = { cleanup_expired_holds now (ensure_availability req.provider_id req.booking_date 1 s) with
           booking_holds :=
             (cleanup_expired_holds now (ensure_availability req.provider_id req.booking_date 1 s)).booking_holds
               ++ [h] } := by
  unfold create_booking_hold at hok
  split at hok
  · simp at hok
  rename_i hprov
  dsimp only at hok
  split at hok
  · simp at hok
  rename_i hslot
  split at hok
  · simp at hok
  rename_i hcut
  split at hok
  · simp at hok
  rename_i hfree
  simp only [Prod.mk.injEq, Except.ok.injEq] at hok
  refine ⟨not_not.mp hprov, ?_, hcut, hfree, hok.1.symm, ?_⟩
  · by_contra hc
    exact hslot (fun hb => hc hb)
  · rw [← hok.2, ← hok.1]

/-! ### C5 -/

/-- C5 counterexample: a read strictly before the hold's expiry, but inside
the two-hour cutoff window, reports the held slot with reason "cutoff"
rather than "held". -/
theorem held_reason_lost_to_cutoff :
    create_booking_hold ⟨"alice", "p1", 1, 660⟩ 15 118500 "h1" base_store =
      (.ok hold1, hold_store) ∧
    (119100 : Int) < hold1.expires_at ∧
    (get_available_slots "p1" 1 119100 hold_store).1 = .ok cutoff_answers ∧
    (∀ a ∈ cutoff_answers, a.time_slot = 660 →
      a.available = false ∧ a.reason = some "cutoff" ∧ a.reason ≠ some "held") := by
  exact ⟨by decide, by decide, by decide, by decide⟩

/-- C5 (amended): after `createHold` with TTL `ttl` at time `now` succeeds,
any availability read at time `r` strictly before `now + ttl` minutes finds
the slot unavailable — with reason "held" when the slot is still at least two
hours away, and "cutoff"-masked inside the cutoff window — and any read at or
after expiry finds the slot available (reason `none`) provided no blackout or
active booking exists and the slot is outside the cutoff; the expired hold is
never observed. -/
theorem hold_blocks_until_expiry (req : BookingHoldRequest) (ttl now : Int)
    (hid : String) (s : ServiceStore) (h : BookingHold) (s2 : ServiceStore)
    (hok : create_booking_hold req ttl now hid s = (.ok h, s2))
    (r : Int) (out : List AvailabilityAnswer) (s3 : ServiceStore)
    (hread : get_available_slots req.provider_id req.booking_date r s2 = (.ok out, s3))
    (hnb : ¬ has_blackout s2 req.provider_id req.booking_date req.time_slot)
    (hnbk : ¬ has_active_booking s2 req.provider_id req.booking_date req.time_slot) :
    (∃ a ∈ out, a.slot_date = req.booking_date ∧ a.time_slot = req.time_slot) ∧
    (∀ a ∈ out, a.slot_date = req.booking_date → a.time_slot = req.time_slot →
      (r < now + ttl * 60 →
        a.available = false ∧
        (cutoff_seconds ≤ slot_start req.booking_date req.time_slot - r →
          a.reason = some "held")) ∧
      (now + ttl * 60 ≤ r →
        cutoff_seconds ≤ slot_start req.booking_date req.time_slot - r →
        a.available = true ∧ a.reason = none)) := by
  obtain ⟨hprov, hslot, hcut, hfree, hh, hs2⟩ := create_booking_hold_ok hok
  obtain ⟨hnb2, hnbk2, hnh2⟩ := of_slot_is_blocked_eq_none hfree
  have hs2holds : s2.booking_holds =
      (cleanup_expired_holds now (ensure_availability req.provider_id req.booking_date 1 s)).booking_holds
        ++ [h] := by rw [hs2]
  have hs2slots : s2.availability_slots =
      (cleanup_expired_holds now (ensure_availability req.provider_id req.booking_date 1 s)).availability_slots := by
    rw [hs2]
  -- unfold the read
  unfold get_available_slots at hread
  split at hread
  · simp at hread
  dsimp only at hread
  simp only [Prod.mk.injEq, Except.ok.injEq] at hread
  obtain ⟨hout, _⟩ := hread
  -- the evaluation store of the read
  have hbl3 : has_blackout
      (cleanup_expired_holds r (ensure_availability req.provider_id req.booking_date 1 s2))
      req.provider_id req.booking_date req.time_slot ↔
      has_blackout s2 req.provider_id req.booking_date req.time_slot :=
    has_blackout_congr (ensure_keeps_blackouts req.provider_id req.booking_date 1 s2) _ _ _
  have hbk3 : has_active_booking
      (cleanup_expired_holds r (ensure_availability req.provider_id req.booking_date 1 s2))
      req.provider_id req.booking_date req.time_slot ↔
      has_active_booking s2 req.provider_id req.booking_date req.time_slot :=
    has_active_booking_congr (ensure_keeps_bookings req.provider_id req.booking_date 1 s2) _ _ _
  have hhd3 : has_hold_row
      (cleanup_expired_holds r (ensure_availability req.provider_id req.booking_date 1 s2))
      req.provider_id req.booking_date req.time_slot ↔
      has_live_hold s2 r req.provider_id req.booking_date req.time_slot := by
    rw [has_hold_row_cleanup]
    exact has_live_hold_congr (ensure_keeps_holds req.provider_id req.booking_date 1 s2) _ _ _ _
  constructor
  · -- the slot row is present, so an answer for it is in the output
    have hex : slot_exists
        (ensure_availability req.provider_id req.booking_date 1 s2)
        req.provider_id req.booking_date req.time_slot = true := by
      apply slot_exists_mono_ensure
      unfold slot_exists
      unfold slot_exists at hslot
      rw [hs2slots]
      exact hslot
    unfold slot_exists at hex
    rw [List.any_eq_true] at hex
    obtain ⟨row, hrmem, hrdec⟩ := hex
    rw [decide_eq_true_eq] at hrdec
    refine ⟨evaluate_slot
      (cleanup_expired_holds r (ensure_availability req.provider_id req.booking_date 1 s2)) r row,
      ?_, ?_, ?_⟩
    · rw [← hout]
      apply List.mem_map_of_mem
      rw [List.mem_filter]
      exact ⟨hrmem, decide_eq_true ⟨hrdec.1, hrdec.2.1⟩⟩
    · rw [evaluate_slot_date, hrdec.2.1]
    · rw [evaluate_slot_time, hrdec.2.2]
  · intro a ha had hat
    rw [← hout] at ha
    obtain ⟨row, hrow, hae⟩ := List.mem_map.mp ha
    obtain ⟨hrow_mem, hpredb⟩ := List.mem_filter.mp hrow
    rw [decide_eq_true_eq] at hpredb
    have hrt : row.time_slot = req.time_slot := by
      rw [← hat, ← hae, evaluate_slot_time]
    have hrd : row.slot_date = req.booking_date := hpredb.2
    unfold evaluate_slot at hae
    dsimp only at hae
    rw [hpredb.1, hrd, hrt] at hae
    constructor
    · -- read strictly before expiry: hold is live, slot blocked
      intro hlive
      have hlh : has_live_hold s2 r req.provider_id req.booking_date req.time_slot := by
        refine ⟨h, ?_, ?_, ?_, ?_, ?_⟩
        · rw [hs2holds]
          exact List.mem_append_right _ (List.mem_singleton.mpr rfl)
        · rw [hh]
        · rw [hh]
        · rw [hh]
        · rw [hh]; exact hlive
      by_cases hcut2 : slot_start req.booking_date req.time_slot - r < cutoff_seconds
      · rw [if_pos hcut2] at hae
        rw [← hae]
        exact ⟨rfl, fun hc => absurd hcut2 (not_lt.mpr hc)⟩
      · rw [if_neg hcut2] at hae
        rw [slot_is_blocked_of_held (fun hc => hnb (hbl3.mp hc))
          (fun hc => hnbk (hbk3.mp hc)) (hhd3.mpr hlh)] at hae
        rw [← hae]
        exact ⟨rfl, fun _ => rfl⟩
    · -- read at/after expiry: the hold is purged, nothing blocks
      intro hexp hcut2
      have hnlh : ¬ has_live_hold s2 r req.provider_id req.booking_date req.time_slot := by
        rintro ⟨g, hg, k1, k2, k3, hlt⟩
        rw [hs2holds] at hg
        rcases List.mem_append.mp hg with hg1 | hg1
        · exact hnh2 ⟨g, hg1, k1, k2, k3⟩
        · rw [List.mem_singleton.mp hg1, hh] at hlt
          exact absurd hlt (not_lt.mpr hexp)
      rw [if_neg (not_lt.mpr hcut2)] at hae
      rw [slot_is_blocked_eq_none (fun hc => hnb (hbl3.mp hc))
        (fun hc => hnbk (hbk3.mp hc)) (fun hc => hnlh (hhd3.mp hc))] at hae
      rw [← hae]
      exact ⟨rfl, rfl⟩

/-- Witness for C5 (amended): a read at 100500 (before expiry 100900, outside
the cutoff) reports "held"; a read at 101000 (after expiry) reports the slot
available. -/
theorem hold_blocks_until_expiry_witness :
    ((⟨1, 660, false, some "held"⟩ : AvailabilityAnswer).available = false ∧
     (⟨1, 660, false, some "held"⟩ : AvailabilityAnswer).reason = some "held") ∧
    ((⟨1, 660, true, none⟩ : AvailabilityAnswer).available = true ∧
     (⟨1, 660, true, none⟩ : AvailabilityAnswer).reason = none) := by
  have hnb : ¬ has_blackout hold_store2 "p1" 1 660 := by
    unfold has_blackout
    decide
  have hnbk : ¬ has_active_booking hold_store2 "p1" 1 660 := by
    unfold has_active_booking
    decide
  constructor
  · have h1 := ((hold_blocks_until_expiry ⟨"alice", "p1", 1, 660⟩ 15 100000 "h2"
      base_store hold2 hold_store2 (by decide) 100500 held_answers hold_store2
      (by decide) hnb hnbk).2
      ⟨1, 660, false, some "held"⟩ (by decide) rfl rfl).1 (by decide)
    exact ⟨h1.1, h1.2 (by decide)⟩
  · exact ((hold_blocks_until_expiry ⟨"alice", "p1", 1, 660⟩ 15 100000 "h2"
      base_store hold2 hold_store2 (by decide) 101000 free_answers hold_store2_after
      (by decide) hnb hnbk).2
      ⟨1, 660, true, none⟩ (by decide) rfl rfl).2 (by decide) (by decide)

/-- `cleanup_expired_holds` does not change which slots exist. -/
theorem slot_exists_cleanup (now : Int) (s : ServiceStore) (p : String) (d : Int)
    (t : Nat) : slot_exists (cleanup_expired_holds now s) p d t = slot_exists s p d t := rfl

/-- Membership in the holds table after the own-hold delete. -/
theorem mem_delete_own_holds {g : BookingHold} {req : BookingRequest} {s : ServiceStore} :
    g ∈ (delete_own_holds req s).booking_holds ↔
    g ∈ s.booking_holds ∧
      ¬ (g.owner_user_id = req.user_id ∧ g.provider_id = req.provider_id ∧
        g.booking_date = req.booking_date ∧ g.time_slot = req.time_slot) := by
  unfold delete_own_holds
  simp only [List.mem_filter, decide_eq_true_eq]

/-- `delete_own_holds` keeps the blackout table. -/
theorem delete_own_holds_keeps_blackouts (req : BookingRequest) (s : ServiceStore) :
    (delete_own_holds req s).provider_blackout_slots = s.provider_blackout_slots := rfl

/-- `delete_own_holds` keeps the bookings table. -/
theorem delete_own_holds_keeps_bookings (req : BookingRequest) (s : ServiceStore) :
    (delete_own_holds req s).bookings = s.bookings := rfl

/-- `cleanup_expired_holds` keeps the blackout table. -/
theorem cleanup_keeps_blackouts (now : Int) (s : ServiceStore) :
    (cleanup_expired_holds now s).provider_blackout_slots = s.provider_blackout_slots := rfl

/-- `cleanup_expired_holds` keeps the bookings table. -/
theorem cleanup_keeps_bookings (now : Int) (s : ServiceStore) :
    (cleanup_expired_holds now s).bookings = s.bookings := rfl

/-- Any of the three blocking conditions makes `_slot_is_blocked` report some
reason. -/
theorem slot_is_blocked_isSome_of_any {s : ServiceStore} {p : String} {d : Int} {t : Nat}
    (hb : has_blackout s p d t ∨ has_active_booking s p d t ∨ has_hold_row s p d t) :
    ∃ r, slot_is_blocked s p d t none = some r := by
  by_cases h1 : has_blackout s p d t
  · exact ⟨_, slot_is_blocked_of_blackout none h1⟩
  by_cases h2 : has_active_booking s p d t
  · exact ⟨_, slot_is_blocked_of_booked h1 h2⟩
  rcases hb with h | h | h
  · exact absurd h h1
  · exact absurd h h2
  · exact ⟨_, slot_is_blocked_of_held h1 h2 h⟩

/-! ### C1 -/

/-- C1 counterexample: with a live hold held by "alice", a `createBooking`
attempt by "bob" made inside the two-hour cutoff window fails with a
Validation error ("Booking cutoff applies for this slot"), not Conflict,
even though the foreign hold is still live. -/
theorem other_requester_hits_cutoff_first :
    create_booking_hold ⟨"alice", "p1", 1, 660⟩ 15 118500 "h1" base_store =
      (.ok hold1, hold_store) ∧
    (119100 : Int) < hold1.expires_at ∧
    "bob" ≠ hold1.owner_user_id ∧
    create_booking ⟨"bob", "p1", "Rex", 1, 660, ""⟩ 119100 "b9" "e9" hold_store =
      (.error (.validation "Booking cutoff applies for this slot"), hold_store) := by
  exact ⟨by decide, by decide, by decide, by decide⟩

/-- C1 (amended): while a hold on a slot is live and the slot is outside the
two-hour cutoff, `createBooking` by a different requester fails with Conflict;
`createBooking` by the requester who owns the hold succeeds (absent blackout,
active booking, and foreign live holds), deletes the requester's own hold,
creates the booking in status "requested" with a `none -> requested` history
entry, and afterwards no hold for that slot remains.  (Inside the cutoff
window the attempt instead fails Validation, per the counterexample.) -/
theorem hold_conversion_and_conflict (s : ServiceStore) (hold : BookingHold)
    (req : BookingRequest) (now : Int) (bid hid : String)
    (hmem : hold ∈ s.booking_holds)
    (hkp : hold.provider_id = req.provider_id)
    (hkd : hold.booking_date = req.booking_date)
    (hkt : hold.time_slot = req.time_slot)
    (hlive : now < hold.expires_at)
    (hprov : provider_exists s req.provider_id = true)
    (hslot : slot_exists s req.provider_id req.booking_date req.time_slot = true)
    (hcut : cutoff_seconds ≤ slot_start req.booking_date req.time_slot - now) :
    (req.user_id ≠ hold.owner_user_id →
      ∃ reason, create_booking req now bid hid s =
        (.error (.conflict ("Time slot unavailable (" ++ reason ++ ")")),
          ensure_availability req.provider_id req.booking_date 1 s)) ∧
    (¬ has_blackout s req.provider_id req.booking_date req.time_slot →
     ¬ has_active_booking s req.provider_id req.booking_date req.time_slot →
     (∀ g ∈ s.booking_holds, g.provider_id = req.provider_id →
        g.booking_date = req.booking_date → g.time_slot = req.time_slot →
        now < g.expires_at → g.owner_user_id = req.user_id) →
      ∃ s2, create_booking req now bid hid s =
        (.ok ⟨bid, req.user_id, req.provider_id, req.pet_name, req.booking_date,
          req.time_slot, req.note, "requested"⟩, s2) ∧
        ¬ has_hold_row s2 req.provider_id req.booking_date req.time_slot ∧
        (⟨bid, req.user_id, req.provider_id, req.pet_name, req.booking_date,
          req.time_slot, req.note, "requested"⟩ : Booking) ∈ s2.bookings ∧
        s2.booking_status_history = s.booking_status_history ++
          [⟨hid, bid, req.user_id, "none", "requested", "booking requested", now⟩]) := by
  have hs2slot : slot_exists
      (cleanup_expired_holds now (ensure_availability req.provider_id req.booking_date 1 s))
      req.provider_id req.booking_date req.time_slot = true := by
    rw [slot_exists_cleanup]
    exact slot_exists_mono_ensure hslot
  have hmem2 : hold ∈ (cleanup_expired_holds now
      (ensure_availability req.provider_id req.booking_date 1 s)).booking_holds := by
    rw [mem_cleanup_holds, ensure_keeps_holds]
    exact ⟨hmem, hlive⟩
  constructor
  · -- a different requester: the hold survives the own-hold delete
    intro hne
    have hhr3 : has_hold_row
        (delete_own_holds req (cleanup_expired_holds now
          (ensure_availability req.provider_id req.booking_date 1 s)))
        req.provider_id req.booking_date req.time_slot := by
      refine ⟨hold, ?_, hkp, hkd, hkt⟩
      rw [mem_delete_own_holds]
      exact ⟨hmem2, fun hc => hne hc.1.symm⟩
    obtain ⟨reason, hr⟩ := slot_is_blocked_isSome_of_hold hhr3
    refine ⟨reason, ?_⟩
    unfold create_booking
    rw [if_neg (not_not_intro hprov)]
    dsimp only
    rw [if_neg (not_not_intro hs2slot), if_neg (not_lt.mpr hcut), hr]
  · -- the hold's owner: the own-hold delete clears the way
    intro hnb hnbk hall
    have hnh3 : ¬ has_hold_row
        (delete_own_holds req (cleanup_expired_holds now
          (ensure_availability req.provider_id req.booking_date 1 s)))
        req.provider_id req.booking_date req.time_slot := by
      rintro ⟨g, hg, k1, k2, k3⟩
      rw [mem_delete_own_holds] at hg
      obtain ⟨hgc, hown⟩ := hg
      rw [mem_cleanup_holds, ensure_keeps_holds] at hgc
      exact hown ⟨hall g hgc.1 k1 k2 k3 hgc.2, k1, k2, k3⟩
    have hbl3 : ¬ has_blackout
        (delete_own_holds req (cleanup_expired_holds now
          (ensure_availability req.provider_id req.booking_date 1 s)))
        req.provider_id req.booking_date req.time_slot := by
      intro hc
      have e : (delete_own_holds req (cleanup_expired_holds now
          (ensure_availability req.provider_id req.booking_date 1 s))).provider_blackout_slots =
          s.provider_blackout_slots := by
        rw [delete_own_holds_keeps_blackouts, cleanup_keeps_blackouts,
          ensure_keeps_blackouts]
      exact hnb ((has_blackout_congr e _ _ _).mp hc)
    have hbk3 : ¬ has_active_booking
        (delete_own_holds req (cleanup_expired_holds now
          (ensure_availability req.provider_id req.booking_date 1 s)))
        req.provider_id req.booking_date req.time_slot := by
      intro hc
      have e : (delete_own_holds req (cleanup_expired_holds now
          (ensure_availability req.provider_id req.booking_date 1 s))).bookings =
          s.bookings := by
        rw [delete_own_holds_keeps_bookings, cleanup_keeps_bookings, ensure_keeps_bookings]
      exact hnbk ((has_active_booking_congr e _ _ _).mp hc)
    have hfree : slot_is_blocked
        (delete_own_holds req (cleanup_expired_holds now
          (ensure_availability req.provider_id req.booking_date 1 s)))
        req.provider_id req.booking_date req.time_slot none = none :=
      slot_is_blocked_eq_none hbl3 hbk3 hnh3
    refine ⟨{ delete_own_holds req (cleanup_expired_holds now
        (ensure_availability req.provider_id req.booking_date 1 s)) with
      bookings := (delete_own_holds req (cleanup_expired_holds now
        (ensure_availability req.provider_id req.booking_date 1 s))).bookings ++
        [⟨bid, req.user_id, req.provider_id, req.pet_name, req.booking_date,
          req.time_slot, req.note, "requested"⟩],
      booking_status_history := (delete_own_holds req (cleanup_expired_holds now
        (ensure_availability req.provider_id req.booking_date 1 s))).booking_status_history ++
        [⟨hid, bid, req.user_id, "none", "requested", "booking requested", now⟩] },
      ?_, ?_, ?_, ?_⟩
    · unfold create_booking
      rw [if_neg (not_not_intro hprov)]
      dsimp only
      rw [if_neg (not_not_intro hs2slot), if_neg (not_lt.mpr hcut), hfree]
    · rintro ⟨g, hg, k1, k2, k3⟩
      exact hnh3 ⟨g, hg, k1, k2, k3⟩
    · exact List.mem_append_right _ (List.mem_singleton.mpr rfl)
    · show (delete_own_holds req (cleanup_expired_holds now
        (ensure_availability req.provider_id req.booking_date 1 s))).booking_status_history
          ++ _ = _
      rw [delete_own_holds_keeps_history, cleanup_keeps_history]
      obtain ⟨extra, he⟩ := ensure_availability_append req.provider_id req.booking_date 1 s
      rw [he]

set_option maxHeartbeats 1600000 in
/-- Witness for C1 (amended): at 118560 (outside the cutoff, hold live) "bob"
gets Conflict and "alice" converts her hold into a requested booking with no
hold left. -/
theorem hold_conversion_and_conflict_witness :
    (∃ reason, create_booking ⟨"bob", "p1", "Rex", 1, 660, ""⟩ 118560 "b2" "e2" hold_store =
      (.error (.conflict ("Time slot unavailable (" ++ reason ++ ")")),
        ensure_availability "p1" 1 1 hold_store)) ∧
    (∃ s2, create_booking ⟨"alice", "p1", "Rex", 1, 660, "pls"⟩ 118560 "b1" "e1" hold_store =
      (.ok ⟨"b1", "alice", "p1", "Rex", 1, 660, "pls", "requested"⟩, s2) ∧
      ¬ has_hold_row s2 "p1" 1 660 ∧
      (⟨"b1", "alice", "p1", "Rex", 1, 660, "pls", "requested"⟩ : Booking) ∈ s2.bookings ∧
      s2.booking_status_history = hold_store.booking_status_history ++
        [⟨"e1", "b1", "alice", "none", "requested", "booking requested", 118560⟩]) := by
  constructor
  · exact (hold_conversion_and_conflict hold_store hold1 ⟨"bob", "p1", "Rex", 1, 660, ""⟩
      118560 "b2" "e2" (by decide) rfl rfl rfl (by decide) (by decide) (by decide)
      (by decide)).1 (by decide)
  · exact (hold_conversion_and_conflict hold_store hold1 ⟨"alice", "p1", "Rex", 1, 660, "pls"⟩
      118560 "b1" "e1" (by decide) rfl rfl rfl (by decide) (by decide) (by decide)
      (by decide)).2
      (by unfold has_blackout; decide) (by unfold has_active_booking; decide)
      (by
        intro g hg k1 k2 k3 hlt
        exact (List.mem_singleton.mp hg) ▸ rfl)

/-! ### C6 -/

/-- C6 counterexample: re-requesting a hold one's own live hold inside the
cutoff window fails with Validation (cutoff), not Conflict. -/
theorem own_hold_rerequest_hits_cutoff_first :
    create_booking_hold ⟨"alice", "p1", 1, 660⟩ 15 118500 "h1" base_store =
      (.ok hold1, hold_store) ∧
    (119100 : Int) < hold1.expires_at ∧
    hold1.owner_user_id = "alice" ∧
    create_booking_hold ⟨"alice", "p1", 1, 660⟩ 15 119100 "h2" hold_store =
      (.error (.validation "Booking cutoff applies for this slot"), hold_store) := by
  exact ⟨by decide, by decide, by decide, by decide⟩

/-- C6 (amended): outside the two-hour cutoff, `createHold` fails with
Conflict whenever the slot is blocked by a blackout, an active booking, or
any live hold — including the caller's own existing hold, which is not
ignored; inside the cutoff window the call instead fails first with the
cutoff Validation error. -/
theorem create_hold_conflicts_when_blocked (req : BookingHoldRequest) (ttl now : Int)
    (hid : String) (s : ServiceStore)
    (hprov : provider_exists s req.provider_id = true)
    (hslot : slot_exists s req.provider_id req.booking_date req.time_slot = true) :
    (cutoff_seconds ≤ slot_start req.booking_date req.time_slot - now →
      (has_blackout s req.provider_id req.booking_date req.time_slot ∨
       has_active_booking s req.provider_id req.booking_date req.time_slot ∨
       has_live_hold s now req.provider_id req.booking_date req.time_slot) →
      ∃ reason, create_booking_hold req ttl now hid s =
        (.error (.conflict ("Time slot unavailable (" ++ reason ++ ")")),
          ensure_availability req.provider_id req.booking_date 1 s)) ∧
    (slot_start req.booking_date req.time_slot - now < cutoff_seconds →
      create_booking_hold req ttl now hid s =
        (.error (.validation "Booking cutoff applies for this slot"),
          ensure_availability req.provider_id req.booking_date 1 s)) := by
  have hs2slot : slot_exists
      (cleanup_expired_holds now (ensure_availability req.provider_id req.booking_date 1 s))
      req.provider_id req.booking_date req.time_slot = true := by
    rw [slot_exists_cleanup]
    exact slot_exists_mono_ensure hslot
  constructor
  · intro hcut hblk
    have hblk2 : has_blackout
        (cleanup_expired_holds now (ensure_availability req.provider_id req.booking_date 1 s))
        req.provider_id req.booking_date req.time_slot ∨
        has_active_booking
          (cleanup_expired_holds now (ensure_availability req.provider_id req.booking_date 1 s))
          req.provider_id req.booking_date req.time_slot ∨
        has_hold_row
          (cleanup_expired_holds now (ensure_availability req.provider_id req.booking_date 1 s))
          req.provider_id req.booking_date req.time_slot := by
      rcases hblk with h | h | h
      · exact Or.inl ((has_blackout_congr
          (ensure_keeps_blackouts req.provider_id req.booking_date 1 s) _ _ _).mpr h)
      · exact Or.inr (Or.inl ((has_active_booking_congr
          (ensure_keeps_bookings req.provider_id req.booking_date 1 s) _ _ _).mpr h))
      · refine Or.inr (Or.inr ?_)
        rw [has_hold_row_cleanup]
        exact (has_live_hold_congr
          (ensure_keeps_holds req.provider_id req.booking_date 1 s) _ _ _ _).mpr h
    obtain ⟨reason, hr⟩ := slot_is_blocked_isSome_of_any hblk2
    refine ⟨reason, ?_⟩
    unfold create_booking_hold
    rw [if_neg (not_not_intro hprov)]
    dsimp only
    rw [if_neg (not_not_intro hs2slot), if_neg (not_lt.mpr hcut), hr]
  · intro hcut
    unfold create_booking_hold
    rw [if_neg (not_not_intro hprov)]
    dsimp only
    rw [if_neg (not_not_intro hs2slot), if_pos hcut]

/-- Witness for C6 (amended): outside the cutoff "alice" re-requesting her
own live hold gets Conflict; inside the cutoff the same request gets the
cutoff Validation error. -/
theorem create_hold_conflicts_when_blocked_witness :
    (∃ reason, create_booking_hold ⟨"alice", "p1", 1, 660⟩ 15 118560 "h2" hold_store =
      (.error (.conflict ("Time slot unavailable (" ++ reason ++ ")")),
        ensure_availability "p1" 1 1 hold_store)) ∧
    create_booking_hold ⟨"alice", "p1", 1, 660⟩ 15 119100 "h2" hold_store =
      (.error (.validation "Booking cutoff applies for this slot"),
        ensure_availability "p1" 1 1 hold_store) := by
  constructor
  · exact (create_hold_conflicts_when_blocked ⟨"alice", "p1", 1, 660⟩ 15 118560 "h2"
      hold_store (by decide) (by decide)).1 (by decide)
      (Or.inr (Or.inr ⟨hold1, by decide, rfl, rfl, rfl, by decide⟩))
  · exact (create_hold_conflicts_when_blocked ⟨"alice", "p1", 1, 660⟩ 15 119100 "h2"
      hold_store (by decide) (by decide)).2 (by decide)

/-- `_refresh_quote_request_status` rewrites only the requests table. -/
theorem refresh_keeps_targets (q : String) (now : Int) (s : ServiceStore) :
    (refresh_quote_request_status q now s).quote_request_targets =
      s.quote_request_targets := rfl

/-- The requests table after `_refresh_quote_request_status`. -/
theorem refresh_requests_eq (q : String) (now : Int) (s : ServiceStore) :
    (refresh_quote_request_status q now s).quote_requests =
      s.quote_requests.map (fun r =>
        if r.id = q then
          { r with
            status := quote_request_next_status
              ((s.quote_request_targets.filter
                (fun t => decide (t.quote_request_id = q))).map (fun t => t.status)),
            updated_at := now }
        else r) := rfl

/-- On status lists drawn from {pending, accepted, declined}, the code's
derived-status computation agrees with the specification's projection. -/
theorem quote_status_projection_agrees (l : List String)
    (hwf : ∀ st ∈ l, st = "pending" ∨ st = "accepted" ∨ st = "declined") :
    quote_request_next_status l = spec_quote_status l := by
  unfold quote_request_next_status spec_quote_status
  rcases l with _ | ⟨x, xs⟩
  · rfl
  have hne : x :: xs ≠ [] := List.cons_ne_nil x xs
  rw [if_neg (by simp : ¬ ((x :: xs).isEmpty = true))]
  by_cases hall : (x :: xs).all (fun st => decide (st = "declined")) = true
  · have hany : (x :: xs).any (fun st => decide (st = "accepted" ∨ st = "declined")) = true := by
      rw [List.any_eq_true]
      refine ⟨x, List.mem_cons_self x xs, ?_⟩
      have hx := (List.all_eq_true.mp hall) x (List.mem_cons_self x xs)
      rw [decide_eq_true_eq] at hx
      rw [decide_eq_true_eq]
      exact Or.inr hx
    rw [if_pos hany, if_pos hall, if_pos (Or.inr hall)]
  · have hspecneg : ¬ ((x :: xs) = [] ∨
        (x :: xs).all (fun st => decide (st = "declined")) = true) := by
      rintro (hc | hc)
      · exact hne hc
      · exact hall hc
    rw [if_neg hspecneg]
    by_cases hany2 : (x :: xs).any (fun st => decide (st ≠ "pending")) = true
    · have hany : (x :: xs).any (fun st => decide (st = "accepted" ∨ st = "declined")) = true := by
        rw [List.any_eq_true] at hany2 ⊢
        obtain ⟨y, hy, hne2⟩ := hany2
        rw [decide_eq_true_eq] at hne2
        rcases hwf y hy with hh | hh | hh
        · exact absurd hh hne2
        · exact ⟨y, hy, by rw [decide_eq_true_eq]; exact Or.inl hh⟩
        · exact ⟨y, hy, by rw [decide_eq_true_eq]; exact Or.inr hh⟩
      rw [if_pos hany, if_neg hall, if_pos hany2]
    · have hany : ¬ ((x :: xs).any (fun st => decide (st = "accepted" ∨ st = "declined")) = true) := by
        intro hc
        apply hany2
        rw [List.any_eq_true] at hc ⊢
        obtain ⟨y, hy, hd⟩ := hc
        rw [decide_eq_true_eq] at hd
        refine ⟨y, hy, ?_⟩
        rw [decide_eq_true_eq]
        rcases hd with hh | hh <;> (rw [hh]; decide)
      rw [if_neg hany, if_neg hany2]

/-! ### C8 -/

/-- C8: after every successful respond operation, the parent QuoteRequest's
stored status equals the specification's pure projection of its targets'
statuses ("closed" when no targets or all declined, "responded" when at least
one target has left "pending" and not all are declined, otherwise
"pending"). -/
theorem request_status_is_projection (qrId pid actor decision message : String)
    (now : Int) (s : ServiceStore) (res : QuoteRequestRow × List QuoteTargetRow)
    (s2 : ServiceStore)
    (h : respond_quote_request qrId pid actor decision message now s = (.ok res, s2))
    (hwf : ∀ t ∈ s.quote_request_targets,
      t.status = "pending" ∨ t.status = "accepted" ∨ t.status = "declined") :
    res.2 = s2.quote_request_targets.filter (fun t => decide (t.quote_request_id = qrId)) ∧
    res.1.status = spec_quote_status (res.2.map (fun t => t.status)) := by
  unfold respond_quote_request at h
  split at h
  · simp at h
  rename_i hdec
  split at h
  · simp at h
  split at h
  · simp at h
  rename_i target htg
  split at h
  · simp at h
  split at h
  · simp at h
  dsimp only at h
  split at h
  · simp at h
  rename_i updated hupd
  simp only [Prod.mk.injEq, Except.ok.injEq] at h
  obtain ⟨hres, hs2⟩ := h
  rw [refresh_requests_eq] at hupd
  have hid : updated.id = qrId := by
    have hp := List.find?_some hupd
    rwa [decide_eq_true_eq] at hp
  have hdec2 : decision = "accepted" ∨ decision = "declined" := by
    have := not_not.mp hdec
    simpa using this
  -- the mapped targets table
  have hwf2 : ∀ t ∈ (s.quote_request_targets.map
      (fun t =>
        if t.quote_request_id = qrId ∧ t.provider_id = pid then
          { t with status := decision, response_message := message.trim,
                   responded_at := some now }
        else t)),
      t.status = "pending" ∨ t.status = "accepted" ∨ t.status = "declined" := by
    intro t ht
    obtain ⟨u, hu, hut⟩ := List.mem_map.mp ht
    by_cases hc : u.quote_request_id = qrId ∧ u.provider_id = pid
    · rw [if_pos hc] at hut
      rw [← hut]
      rcases hdec2 with hh | hh
      · exact Or.inr (Or.inl hh)
      · exact Or.inr (Or.inr hh)
    · rw [if_neg hc] at hut
      rw [← hut]
      exact hwf u hu
  have hstat : updated.status = quote_request_next_status
      (((s.quote_request_targets.map
        (fun t =>
          if t.quote_request_id = qrId ∧ t.provider_id = pid then
            { t with status := decision, response_message := message.trim,
                     responded_at := some now }
          else t)).filter
        (fun t => decide (t.quote_request_id = qrId))).map (fun t => t.status)) := by
    have hmem := List.mem_of_find?_eq_some hupd
    obtain ⟨orig, horig, hgorig⟩ := List.mem_map.mp hmem
    by_cases ho : orig.id = qrId
    · rw [if_pos ho] at hgorig
      rw [← hgorig]
    · rw [if_neg ho] at hgorig
      rw [← hgorig] at hid
      exact absurd hid ho
  constructor
  · rw [← hres, ← hs2]
  · rw [← hres]
    dsimp only
    rw [hstat]
    apply quote_status_projection_agrees
    intro st hst
    obtain ⟨t, ht, hts⟩ := List.mem_map.mp hst
    rw [← hts]
    exact hwf2 t (List.mem_of_mem_filter ht)

set_option maxHeartbeats 1000000 in
/-- Witness for C8 at the specification's scenario: after one decline and one
accept with one target untouched, the stored status is the projection, and it
is "responded". -/
theorem request_status_is_projection_witness :
    (qreq1_after2, [qt1_declined, qt2_accepted, qt3]).2 =
      quote_store2.quote_request_targets.filter
        (fun t => decide (t.quote_request_id = "qr1")) ∧
    (qreq1_after2, [qt1_declined, qt2_accepted, qt3]).1.status =
      spec_quote_status
        ((qreq1_after2, [qt1_declined, qt2_accepted, qt3]).2.map (fun t => t.status)) ∧
    qreq1_after2.status = "responded" :=
  have hmain := request_status_is_projection "qr1" "p2" "own2" "accepted" "yes" 20
    quote_store1 (qreq1_after2, [qt1_declined, qt2_accepted, qt3]) quote_store2
    rfl (by decide)
  ⟨hmain.1, hmain.2, by decide⟩

/-- The fold of `dispatch_step` splits into a pure emission list (a
`filterMap` of the snapshot rows) and the store fold of the flag updates. -/
theorem dispatch_fold_split (now : Int) :
    ∀ (rows : List QuoteTargetRow) (pr : List QuoteReminder × ServiceStore),
      rows.foldl (dispatch_step now) pr =
        (pr.1 ++ rows.filterMap (row_reminder now),
         rows.foldl (fun st row => apply_row_update now row st) pr.2) := by
  intro rows
  induction rows with
  | nil => intro pr; simp
  | cons r rest ih =>
    intro pr
    rw [List.foldl_cons, ih, List.foldl_cons]
    cases h : row_reminder now r <;>
      simp [dispatch_step, h, List.filterMap_cons, List.append_assoc]

/-- The reminders one dispatch emits, as a pure function of the snapshot. -/
theorem dispatch_emits (now : Int) (s : ServiceStore) :
    (dispatch_quote_reminders now s).1 =
      (reminder_rows s).filterMap (row_reminder now) := by
  unfold dispatch_quote_reminders
  rw [dispatch_fold_split]
  simp

/-- The store one dispatch leaves, as a fold of the flag updates. -/
theorem dispatch_store (now : Int) (s : ServiceStore) :
    (dispatch_quote_reminders now s).2 =
      (reminder_rows s).foldl (fun st row => apply_row_update now row st) s := by
  unfold dispatch_quote_reminders
  rw [dispatch_fold_split]

/-- 60-minute branch of `row_reminder`. -/
theorem row_reminder_60 {now : Int} {row : QuoteTargetRow}
    (h : 60 ≤ elapsed_minutes now row.created_at ∧ row.reminder_60_sent = false) :
    row_reminder now row = some ⟨row.quote_request_id, row.provider_id,
      row.owner_user_id, elapsed_minutes now row.created_at, "60m"⟩ := by
  unfold row_reminder
  rw [if_pos h]

/-- 15-minute branch of `row_reminder`. -/
theorem row_reminder_15 {now : Int} {row : QuoteTargetRow}
    (h60 : ¬ (60 ≤ elapsed_minutes now row.created_at ∧ row.reminder_60_sent = false))
    (h : 15 ≤ elapsed_minutes now row.created_at ∧ row.reminder_15_sent = false) :
    row_reminder now row = some ⟨row.quote_request_id, row.provider_id,
      row.owner_user_id, elapsed_minutes now row.created_at, "15m"⟩ := by
  unfold row_reminder
  rw [if_neg h60, if_pos h]

/-- No-reminder branch of `row_reminder`. -/
theorem row_reminder_none {now : Int} {row : QuoteTargetRow}
    (h60 : ¬ (60 ≤ elapsed_minutes now row.created_at ∧ row.reminder_60_sent = false))
    (h15 : ¬ (15 ≤ elapsed_minutes now row.created_at ∧ row.reminder_15_sent = false)) :
    row_reminder now row = none := by
  unfold row_reminder
  rw [if_neg h60, if_neg h15]

/-- Counting 60-minute reminders for key (q, p) among the emissions equals
counting snapshot rows of that key that fire the 60-minute tier. -/
theorem count_emitted_60 (now : Int) (q p : String) :
    ∀ rows : List QuoteTargetRow,
      reminder_count q p "60m" (rows.filterMap (row_reminder now)) =
      rows.countP (fun row => decide (row.quote_request_id = q ∧ row.provider_id = p ∧
        60 ≤ elapsed_minutes now row.created_at ∧ row.reminder_60_sent = false)) := by
  intro rows
  induction rows with
  | nil => rfl
  | cons r rest ih =>
    rw [List.countP_cons]
    by_cases h60 : 60 ≤ elapsed_minutes now r.created_at ∧ r.reminder_60_sent = false
    · rw [List.filterMap_cons_some (row_reminder_60 h60)]
      unfold reminder_count at ih ⊢
      rw [List.countP_cons, ih]
      dsimp only
      congr 1
      by_cases hk : r.quote_request_id = q ∧ r.provider_id = p
      · rw [if_pos (decide_eq_true (show _ ∧ _ ∧ ("60m" : String) = "60m" from ⟨hk.1, hk.2, rfl⟩)),
          if_pos (decide_eq_true ⟨hk.1, hk.2, h60.1, h60.2⟩)]
      · rw [if_neg (fun hc => hk ⟨(of_decide_eq_true hc).1, (of_decide_eq_true hc).2.1⟩),
          if_neg (fun hc => hk ⟨(of_decide_eq_true hc).1, (of_decide_eq_true hc).2.1⟩)]
    · rw [if_neg (fun hc => h60 ⟨(of_decide_eq_true hc).2.2.1, (of_decide_eq_true hc).2.2.2⟩),
        Nat.add_zero]
      by_cases h15 : 15 ≤ elapsed_minutes now r.created_at ∧ r.reminder_15_sent = false
      · rw [List.filterMap_cons_some (row_reminder_15 h60 h15)]
        unfold reminder_count at ih ⊢
        rw [List.countP_cons, ih]
        dsimp only
        rw [if_neg (fun hc => absurd (of_decide_eq_true hc).2.2 (by decide)), Nat.add_zero]
      · rw [List.filterMap_cons_none (row_reminder_none h60 h15)]
        exact ih

/-- The 15-minute analogue of `count_emitted_60`. -/
theorem count_emitted_15 (now : Int) (q p : String) :
    ∀ rows : List QuoteTargetRow,
      reminder_count q p "15m" (rows.filterMap (row_reminder now)) =
      rows.countP (fun row => decide (row.quote_request_id = q ∧ row.provider_id = p ∧
        ¬ (60 ≤ elapsed_minutes now row.created_at ∧ row.reminder_60_sent = false) ∧
        15 ≤ elapsed_minutes now row.created_at ∧ row.reminder_15_sent = false)) := by
  intro rows
  induction rows with
  | nil => rfl
  | cons r rest ih =>
    rw [List.countP_cons]
    by_cases h60 : 60 ≤ elapsed_minutes now r.created_at ∧ r.reminder_60_sent = false
    · rw [List.filterMap_cons_some (row_reminder_60 h60)]
      unfold reminder_count at ih ⊢
      rw [List.countP_cons, ih]
      dsimp only
      rw [if_neg (fun hc => absurd (of_decide_eq_true hc).2.2 (by decide)),
        if_neg (fun hc => (of_decide_eq_true hc).2.2.1 h60), Nat.add_zero]
    · by_cases h15 : 15 ≤ elapsed_minutes now r.created_at ∧ r.reminder_15_sent = false
      · rw [List.filterMap_cons_some (row_reminder_15 h60 h15)]
        unfold reminder_count at ih ⊢
        rw [List.countP_cons, ih]
        dsimp only
        congr 1
        by_cases hk : r.quote_request_id = q ∧ r.provider_id = p
        · rw [if_pos (decide_eq_true (show _ ∧ _ ∧ ("15m" : String) = "15m" from ⟨hk.1, hk.2, rfl⟩)),
            if_pos (decide_eq_true ⟨hk.1, hk.2, h60, h15.1, h15.2⟩)]
        · rw [if_neg (fun hc => hk ⟨(of_decide_eq_true hc).1, (of_decide_eq_true hc).2.1⟩),
            if_neg (fun hc => hk ⟨(of_decide_eq_true hc).1, (of_decide_eq_true hc).2.1⟩)]
      · rw [List.filterMap_cons_none (row_reminder_none h60 h15)]
        rw [if_neg (fun hc => h15 (of_decide_eq_true hc).2.2.2), Nat.add_zero]
        exact ih

/-- Where each target of the store after one row's flag update comes from:
either untouched, or flag-raised because it shares the processed row's key
and the row fired a tier. -/
theorem mem_apply_row_update {u : QuoteTargetRow} {now : Int} {row : QuoteTargetRow}
    {st : ServiceStore} (h : u ∈ (apply_row_update now row st).quote_request_targets) :
    ∃ v ∈ st.quote_request_targets,
      u = v ∨
      (v.quote_request_id = row.quote_request_id ∧ v.provider_id = row.provider_id ∧
       (((60 ≤ elapsed_minutes now row.created_at ∧ row.reminder_60_sent = false) ∧
          u = { v with reminder_60_sent := true, reminder_15_sent := true }) ∨
        ((¬ (60 ≤ elapsed_minutes now row.created_at ∧ row.reminder_60_sent = false) ∧
          15 ≤ elapsed_minutes now row.created_at ∧ row.reminder_15_sent = false) ∧
          u = { v with reminder_15_sent := true }))) := by
  unfold apply_row_update at h
  dsimp only at h
  split at h
  · rename_i h60
    obtain ⟨v, hv, huv⟩ := List.mem_map.mp h
    by_cases hc : v.quote_request_id = row.quote_request_id ∧ v.provider_id = row.provider_id
    · rw [if_pos hc] at huv
      exact ⟨v, hv, Or.inr ⟨hc.1, hc.2, Or.inl ⟨h60, huv.symm⟩⟩⟩
    · rw [if_neg hc] at huv
      exact ⟨v, hv, Or.inl huv.symm⟩
  · split at h
    · rename_i h60 h15
      obtain ⟨v, hv, huv⟩ := List.mem_map.mp h
      by_cases hc : v.quote_request_id = row.quote_request_id ∧ v.provider_id = row.provider_id
      · rw [if_pos hc] at huv
        exact ⟨v, hv, Or.inr ⟨hc.1, hc.2, Or.inr ⟨⟨h60, h15⟩, huv.symm⟩⟩⟩
      · rw [if_neg hc] at huv
        exact ⟨v, hv, Or.inl huv.symm⟩
    · exact ⟨u, h, Or.inl rfl⟩

/-- A raised 60-minute flag is never lowered by a flag update. -/
theorem apply_row_update_keeps_all60 {now : Int} {row : QuoteTargetRow}
    {st : ServiceStore} {q p : String}
    (hall : ∀ u ∈ st.quote_request_targets, u.quote_request_id = q →
      u.provider_id = p → u.reminder_60_sent = true) :
    ∀ u ∈ (apply_row_update now row st).quote_request_targets,
      u.quote_request_id = q → u.provider_id = p → u.reminder_60_sent = true := by
  intro u hu hq hp
  obtain ⟨v, hv, hc⟩ := mem_apply_row_update hu
  rcases hc with rfl | ⟨k1, k2, ⟨h60, rfl⟩ | ⟨h15, rfl⟩⟩
  · exact hall u hv hq hp
  · rfl
  · exact hall v hv hq hp

/-- A raised 15-minute flag is never lowered by a flag update. -/
theorem apply_row_update_keeps_all15 {now : Int} {row : QuoteTargetRow}
    {st : ServiceStore} {q p : String}
    (hall : ∀ u ∈ st.quote_request_targets, u.quote_request_id = q →
      u.provider_id = p → u.reminder_15_sent = true) :
    ∀ u ∈ (apply_row_update now row st).quote_request_targets,
      u.quote_request_id = q → u.provider_id = p → u.reminder_15_sent = true := by
  intro u hu hq hp
  obtain ⟨v, hv, hc⟩ := mem_apply_row_update hu
  rcases hc with rfl | ⟨k1, k2, ⟨h60, rfl⟩ | ⟨h15, rfl⟩⟩
  · exact hall u hv hq hp
  · rfl
  · rfl

/-- A row that does not fire the 60-minute tier for key (q, p) leaves the
60-minute flag of every (q, p) target at its old value. -/
theorem apply_row_update_keeps_r60_val {now : Int} {row : QuoteTargetRow}
    {st : ServiceStore} {q p : String} {b : Bool}
    (hrow : ¬ (row.quote_request_id = q ∧ row.provider_id = p ∧
      60 ≤ elapsed_minutes now row.created_at ∧ row.reminder_60_sent = false))
    (hall : ∀ u ∈ st.quote_request_targets, u.quote_request_id = q →
      u.provider_id = p → u.reminder_60_sent = b) :
    ∀ u ∈ (apply_row_update now row st).quote_request_targets,
      u.quote_request_id = q → u.provider_id = p → u.reminder_60_sent = b := by
  intro u hu hq hp
  obtain ⟨v, hv, hc⟩ := mem_apply_row_update hu
  rcases hc with rfl | ⟨k1, k2, ⟨h60, rfl⟩ | ⟨h15, rfl⟩⟩
  · exact hall u hv hq hp
  · exact absurd ⟨k1 ▸ hq, k2 ▸ hp, h60.1, h60.2⟩ hrow
  · exact hall v hv hq hp

/-- Flag updates preserve how many stored targets carry key (q, p). -/
theorem apply_row_update_keycount {now : Int} {row : QuoteTargetRow}
    {st : ServiceStore} {q p : String} :
    (apply_row_update now row st).quote_request_targets.countP (keyb q p) =
      st.quote_request_targets.countP (keyb q p) := by
  unfold apply_row_update
  dsimp only
  split
  · rw [List.countP_map]
    apply List.countP_congr
    intro v hv
    unfold keyb
    dsimp only [Function.comp]
    split <;> rfl
  · split
    · rw [List.countP_map]
      apply List.countP_congr
      intro v hv
      unfold keyb
      dsimp only [Function.comp]
      split <;> rfl
    · rfl

/-- A (q, p) row firing the 60-minute tier raises both flags of every stored
(q, p) target. -/
theorem apply_row_update_sets_60 {now : Int} {row : QuoteTargetRow}
    {st : ServiceStore} {q p : String}
    (hk1 : row.quote_request_id = q) (hk2 : row.provider_id = p)
    (h60 : 60 ≤ elapsed_minutes now row.created_at ∧ row.reminder_60_sent = false) :
    ∀ u ∈ (apply_row_update now row st).quote_request_targets,
      u.quote_request_id = q → u.provider_id = p →
      u.reminder_60_sent = true ∧ u.reminder_15_sent = true := by
  unfold apply_row_update
  dsimp only
  rw [if_pos h60]
  intro u hu hq hp
  obtain ⟨v, hv, huv⟩ := List.mem_map.mp hu
  by_cases hc : v.quote_request_id = row.quote_request_id ∧ v.provider_id = row.provider_id
  · rw [if_pos hc] at huv
    rw [← huv]
    exact ⟨rfl, rfl⟩
  · rw [if_neg hc] at huv
    rw [← huv] at hq hp
    exact absurd ⟨hq.trans hk1.symm, hp.trans hk2.symm⟩ hc

/-- A (q, p) row firing the 15-minute tier raises the 15-minute flag of every
stored (q, p) target. -/
theorem apply_row_update_sets_15 {now : Int} {row : QuoteTargetRow}
    {st : ServiceStore} {q p : String}
    (hk1 : row.quote_request_id = q) (hk2 : row.provider_id = p)
    (h60 : ¬ (60 ≤ elapsed_minutes now row.created_at ∧ row.reminder_60_sent = false))
    (h15 : 15 ≤ elapsed_minutes now row.created_at ∧ row.reminder_15_sent = false) :
    ∀ u ∈ (apply_row_update now row st).quote_request_targets,
      u.quote_request_id = q → u.provider_id = p → u.reminder_15_sent = true := by
  unfold apply_row_update
  dsimp only
  rw [if_neg h60, if_pos h15]
  intro u hu hq hp
  obtain ⟨v, hv, huv⟩ := List.mem_map.mp hu
  by_cases hc : v.quote_request_id = row.quote_request_id ∧ v.provider_id = row.provider_id
  · rw [if_pos hc] at huv
    rw [← huv]
  · rw [if_neg hc] at huv
    rw [← huv] at hq hp
    exact absurd ⟨hq.trans hk1.symm, hp.trans hk2.symm⟩ hc

/-- `apply_row_update_keeps_all60`, lifted to the whole row fold. -/
theorem fold_keeps_all60 (now : Int) (q p : String) :
    ∀ (rows : List QuoteTargetRow) (st : ServiceStore),
      (∀ u ∈ st.quote_request_targets, u.quote_request_id = q →
        u.provider_id = p → u.reminder_60_sent = true) →
      ∀ u ∈ (rows.foldl (fun st row => apply_row_update now row st) st).quote_request_targets,
        u.quote_request_id = q → u.provider_id = p → u.reminder_60_sent = true := by
  intro rows
  induction rows with
  | nil => intro st hall; exact hall
  | cons r rest ih =>
    intro st hall
    rw [List.foldl_cons]
    exact ih _ (apply_row_update_keeps_all60 hall)

/-- `apply_row_update_keeps_all15`, lifted to the whole row fold. -/
theorem fold_keeps_all15 (now : Int) (q p : String) :
    ∀ (rows : List QuoteTargetRow) (st : ServiceStore),
      (∀ u ∈ st.quote_request_targets, u.quote_request_id = q →
        u.provider_id = p → u.reminder_15_sent = true) →
      ∀ u ∈ (rows.foldl (fun st row => apply_row_update now row st) st).quote_request_targets,
        u.quote_request_id = q → u.provider_id = p → u.reminder_15_sent = true := by
  intro rows
  induction rows with
  | nil => intro st hall; exact hall
  | cons r rest ih =>
    intro st hall
    rw [List.foldl_cons]
    exact ih _ (apply_row_update_keeps_all15 hall)

/-- `apply_row_update_keeps_r60_val`, lifted to the whole row fold. -/
theorem fold_keeps_r60_val (now : Int) (q p : String) (b : Bool) :
    ∀ (rows : List QuoteTargetRow) (st : ServiceStore),
      (∀ row ∈ rows, ¬ (row.quote_request_id = q ∧ row.provider_id = p ∧
        60 ≤ elapsed_minutes now row.created_at ∧ row.reminder_60_sent = false)) →
      (∀ u ∈ st.quote_request_targets, u.quote_request_id = q →
        u.provider_id = p → u.reminder_60_sent = b) →
      ∀ u ∈ (rows.foldl (fun st row => apply_row_update now row st) st).quote_request_targets,
        u.quote_request_id = q → u.provider_id = p → u.reminder_60_sent = b := by
  intro rows
  induction rows with
  | nil => intro st hrows hall; exact hall
  | cons r rest ih =>
    intro st hrows hall
    rw [List.foldl_cons]
    exact ih _ (fun row hr => hrows row (List.mem_cons_of_mem r hr))
      (apply_row_update_keeps_r60_val (hrows r (List.mem_cons_self r rest)) hall)

/-- `apply_row_update_keycount`, lifted to the whole row fold. -/
theorem fold_keycount (now : Int) (q p : String) :
    ∀ (rows : List QuoteTargetRow) (st : ServiceStore),
      ((rows.foldl (fun st row => apply_row_update now row st) st).quote_request_targets.countP
        (keyb q p)) = st.quote_request_targets.countP (keyb q p) := by
  intro rows
  induction rows with
  | nil => intro st; rfl
  | cons r rest ih =>
    intro st
    rw [List.foldl_cons, ih, apply_row_update_keycount]

/-- `keyb` as the conjunction it decides. -/
theorem keyb_iff {q p : String} {t : QuoteTargetRow} :
    keyb q p t = true ↔ t.quote_request_id = q ∧ t.provider_id = p := by
  unfold keyb
  exact decide_eq_true_eq.to_iff

/-- `reminder_count` distributes over append. -/
theorem reminder_count_append (q p tier : String) (l1 l2 : List QuoteReminder) :
    reminder_count q p tier (l1 ++ l2) =
      reminder_count q p tier l1 + reminder_count q p tier l2 := by
  unfold reminder_count
  rw [List.countP_append]

/-- One dispatch emits at most one 60-minute reminder for a key held by at
most one stored target. -/
theorem dispatch_count60_le (now : Int) (q p : String) (s : ServiceStore)
    (huniq : s.quote_request_targets.countP (keyb q p) ≤ 1) :
    reminder_count q p "60m" (dispatch_quote_reminders now s).1 ≤ 1 := by
  rw [dispatch_emits, count_emitted_60]
  have h1 : (reminder_rows s).countP (fun row => decide (row.quote_request_id = q ∧
      row.provider_id = p ∧ 60 ≤ elapsed_minutes now row.created_at ∧
      row.reminder_60_sent = false)) ≤ (reminder_rows s).countP (keyb q p) := by
    apply List.countP_mono_left
    intro row hr hp
    exact keyb_iff.mpr ⟨(of_decide_eq_true hp).1, (of_decide_eq_true hp).2.1⟩
  have h2 : (reminder_rows s).countP (keyb q p) ≤
      s.quote_request_targets.countP (keyb q p) := by
    unfold reminder_rows
    rw [List.countP_filter]
    apply List.countP_mono_left
    intro row hr hp
    simp only [Bool.and_eq_true] at hp
    exact hp.1
  omega

/-- The 15-minute analogue of `dispatch_count60_le`. -/
theorem dispatch_count15_le (now : Int) (q p : String) (s : ServiceStore)
    (huniq : s.quote_request_targets.countP (keyb q p) ≤ 1) :
    reminder_count q p "15m" (dispatch_quote_reminders now s).1 ≤ 1 := by
  rw [dispatch_emits, count_emitted_15]
  have h1 : (reminder_rows s).countP (fun row => decide (row.quote_request_id = q ∧
      row.provider_id = p ∧
      ¬ (60 ≤ elapsed_minutes now row.created_at ∧ row.reminder_60_sent = false) ∧
      15 ≤ elapsed_minutes now row.created_at ∧ row.reminder_15_sent = false)) ≤
      (reminder_rows s).countP (keyb q p) := by
    apply List.countP_mono_left
    intro row hr hp
    exact keyb_iff.mpr ⟨(of_decide_eq_true hp).1, (of_decide_eq_true hp).2.1⟩
  have h2 : (reminder_rows s).countP (keyb q p) ≤
      s.quote_request_targets.countP (keyb q p) := by
    unfold reminder_rows
    rw [List.countP_filter]
    apply List.countP_mono_left
    intro row hr hp
    simp only [Bool.and_eq_true] at hp
    exact hp.1
  omega

/-- Once every (q, p) target carries the 60-minute flag, a dispatch emits no
60-minute reminder for the key. -/
theorem dispatch_count60_zero (now : Int) (q p : String) (s : ServiceStore)
    (hall : all_reminded_60 q p s) :
    reminder_count q p "60m" (dispatch_quote_reminders now s).1 = 0 := by
  rw [dispatch_emits, count_emitted_60, List.countP_eq_zero]
  intro row hr hp
  obtain ⟨h1, h2, h3, h4⟩ := of_decide_eq_true hp
  have := hall row (List.mem_of_mem_filter hr) h1 h2
  rw [h4] at this
  cases this

/-- Once every (q, p) target carries the 15-minute flag, a dispatch emits no
15-minute reminder for the key. -/
theorem dispatch_count15_zero (now : Int) (q p : String) (s : ServiceStore)
    (hall : all_reminded_15 q p s) :
    reminder_count q p "15m" (dispatch_quote_reminders now s).1 = 0 := by
  rw [dispatch_emits, count_emitted_15, List.countP_eq_zero]
  intro row hr hp
  obtain ⟨h1, h2, h3, h4, h5⟩ := of_decide_eq_true hp
  have := hall row (List.mem_of_mem_filter hr) h1 h2
  rw [h5] at this
  cases this

/-- A dispatch never lowers the raised 60-minute flags of a key. -/
theorem dispatch_keeps_all60 (now : Int) (q p : String) (s : ServiceStore)
    (hall : all_reminded_60 q p s) :
    all_reminded_60 q p (dispatch_quote_reminders now s).2 := by
  unfold all_reminded_60 at hall ⊢
  rw [dispatch_store]
  exact fold_keeps_all60 now q p (reminder_rows s) s hall

/-- A dispatch never lowers the raised 15-minute flags of a key. -/
theorem dispatch_keeps_all15 (now : Int) (q p : String) (s : ServiceStore)
    (hall : all_reminded_15 q p s) :
    all_reminded_15 q p (dispatch_quote_reminders now s).2 := by
  unfold all_reminded_15 at hall ⊢
  rw [dispatch_store]
  exact fold_keeps_all15 now q p (reminder_rows s) s hall

/-- A dispatch keeps the number of stored (q, p) targets. -/
theorem dispatch_keycount (now : Int) (q p : String) (s : ServiceStore) :
    (dispatch_quote_reminders now s).2.quote_request_targets.countP (keyb q p) =
      s.quote_request_targets.countP (keyb q p) := by
  rw [dispatch_store]
  exact fold_keycount now q p (reminder_rows s) s

/-- If some snapshot row fires the 60-minute tier for key (q, p), then after
the dispatch every stored (q, p) target carries both flags. -/
theorem dispatch_fires60_sets_flags (now : Int) (q p : String) (s : ServiceStore)
    (h : 0 < (reminder_rows s).countP (fun row => decide (row.quote_request_id = q ∧
      row.provider_id = p ∧ 60 ≤ elapsed_minutes now row.created_at ∧
      row.reminder_60_sent = false))) :
    all_reminded_60 q p (dispatch_quote_reminders now s).2 ∧
    all_reminded_15 q p (dispatch_quote_reminders now s).2 := by
  obtain ⟨row, hr, hp⟩ := List.countP_pos_iff.mp h
  obtain ⟨h1, h2, h3, h4⟩ := of_decide_eq_true hp
  obtain ⟨l1, l2, hrows⟩ := List.append_of_mem hr
  constructor
  · unfold all_reminded_60
    rw [dispatch_store, hrows, List.foldl_append, List.foldl_cons]
    exact fold_keeps_all60 now q p l2 _
      (fun u hu hq hp2 => (apply_row_update_sets_60 h1 h2 ⟨h3, h4⟩ u hu hq hp2).1)
  · unfold all_reminded_15
    rw [dispatch_store, hrows, List.foldl_append, List.foldl_cons]
    exact fold_keeps_all15 now q p l2 _
      (fun u hu hq hp2 => (apply_row_update_sets_60 h1 h2 ⟨h3, h4⟩ u hu hq hp2).2)

/-- If some snapshot row fires the 15-minute tier for key (q, p), then after
the dispatch every stored (q, p) target carries the 15-minute flag. -/
theorem dispatch_fires15_sets_flag (now : Int) (q p : String) (s : ServiceStore)
    (h : 0 < (reminder_rows s).countP (fun row => decide (row.quote_request_id = q ∧
      row.provider_id = p ∧
      ¬ (60 ≤ elapsed_minutes now row.created_at ∧ row.reminder_60_sent = false) ∧
      15 ≤ elapsed_minutes now row.created_at ∧ row.reminder_15_sent = false))) :
    all_reminded_15 q p (dispatch_quote_reminders now s).2 := by
  obtain ⟨row, hr, hp⟩ := List.countP_pos_iff.mp h
  obtain ⟨h1, h2, h3, h4, h5⟩ := of_decide_eq_true hp
  obtain ⟨l1, l2, hrows⟩ := List.append_of_mem hr
  unfold all_reminded_15
  rw [dispatch_store, hrows, List.foldl_append, List.foldl_cons]
  exact fold_keeps_all15 now q p l2 _
    (apply_row_update_sets_15 h1 h2 h3 ⟨h4, h5⟩)

/-- The polling fold splits off its accumulator. -/
theorem dispatch_many_split :
    ∀ (times : List Int) (pr : List QuoteReminder × ServiceStore),
      times.foldl dispatch_many_step pr =
        (pr.1 ++ (dispatch_many times pr.2).1, (dispatch_many times pr.2).2) := by
  intro times
  induction times with
  | nil => intro pr; simp [dispatch_many]
  | cons τ rest ih =>
    intro pr
    unfold dispatch_many
    rw [List.foldl_cons, List.foldl_cons, ih, ih]
    simp [dispatch_many_step, List.append_assoc]

/-- Unfolding one invocation of the polling sequence. -/
theorem dispatch_many_cons (τ : Int) (times : List Int) (s : ServiceStore) :
    dispatch_many (τ :: times) s =
      ((dispatch_quote_reminders τ s).1 ++
        (dispatch_many times (dispatch_quote_reminders τ s).2).1,
       (dispatch_many times (dispatch_quote_reminders τ s).2).2) := by
  unfold dispatch_many
  rw [List.foldl_cons, dispatch_many_split]
  simp [dispatch_many_step]
  exact ⟨rfl, rfl⟩

/-- No polling sequence re-fires the 60-minute tier once every (q, p) target
carries the flag. -/
theorem many_count60_zero (q p : String) :
    ∀ (times : List Int) (s : ServiceStore), all_reminded_60 q p s →
      reminder_count q p "60m" (dispatch_many times s).1 = 0 := by
  intro times
  induction times with
  | nil => intro s hall; rfl
  | cons τ rest ih =>
    intro s hall
    rw [dispatch_many_cons, reminder_count_append,
      dispatch_count60_zero τ q p s hall,
      ih _ (dispatch_keeps_all60 τ q p s hall)]

/-- No polling sequence re-fires the 15-minute tier once every (q, p) target
carries the flag. -/
theorem many_count15_zero (q p : String) :
    ∀ (times : List Int) (s : ServiceStore), all_reminded_15 q p s →
      reminder_count q p "15m" (dispatch_many times s).1 = 0 := by
  intro times
  induction times with
  | nil => intro s hall; rfl
  | cons τ rest ih =>
    intro s hall
    rw [dispatch_many_cons, reminder_count_append,
      dispatch_count15_zero τ q p s hall,
      ih _ (dispatch_keeps_all15 τ q p s hall)]

/-- Across any polling sequence, the 60-minute tier fires at most once for a
key held by at most one stored target. -/
theorem many_count60_le (q p : String) :
    ∀ (times : List Int) (s : ServiceStore),
      s.quote_request_targets.countP (keyb q p) ≤ 1 →
      reminder_count q p "60m" (dispatch_many times s).1 ≤ 1 := by
  intro times
  induction times with
  | nil => intro s huniq; exact Nat.zero_le 1
  | cons τ rest ih =>
    intro s huniq
    rw [dispatch_many_cons, reminder_count_append]
    by_cases hfire : 0 < (reminder_rows s).countP (fun row =>
        decide (row.quote_request_id = q ∧ row.provider_id = p ∧
          60 ≤ elapsed_minutes τ row.created_at ∧ row.reminder_60_sent = false))
    · have hall := dispatch_fires60_sets_flags τ q p s hfire
      have hz := many_count60_zero q p rest _ hall.1
      have h1 := dispatch_count60_le τ q p s huniq
      omega
    · have h0 : (reminder_rows s).countP (fun row =>
          decide (row.quote_request_id = q ∧ row.provider_id = p ∧
            60 ≤ elapsed_minutes τ row.created_at ∧ row.reminder_60_sent = false)) = 0 :=
        Nat.eq_zero_of_not_pos hfire
      have h1 : reminder_count q p "60m" (dispatch_quote_reminders τ s).1 = 0 := by
        rw [dispatch_emits, count_emitted_60]
        exact h0
      have huniq2 : (dispatch_quote_reminders τ s).2.quote_request_targets.countP
          (keyb q p) ≤ 1 := by
        rw [dispatch_keycount]
        exact huniq
      have h2 := ih _ huniq2
      omega

/-- Across any polling sequence, the 15-minute tier fires at most once for a
key held by at most one stored target. -/
theorem many_count15_le (q p : String) :
    ∀ (times : List Int) (s : ServiceStore),
      s.quote_request_targets.countP (keyb q p) ≤ 1 →
      reminder_count q p "15m" (dispatch_many times s).1 ≤ 1 := by
  intro times
  induction times with
  | nil => intro s huniq; exact Nat.zero_le 1
  | cons τ rest ih =>
    intro s huniq
    rw [dispatch_many_cons, reminder_count_append]
    by_cases hfire : 0 < (reminder_rows s).countP (fun row =>
        decide (row.quote_request_id = q ∧ row.provider_id = p ∧
          ¬ (60 ≤ elapsed_minutes τ row.created_at ∧ row.reminder_60_sent = false) ∧
          15 ≤ elapsed_minutes τ row.created_at ∧ row.reminder_15_sent = false))
    · have hall := dispatch_fires15_sets_flag τ q p s hfire
      have hz := many_count15_zero q p rest _ hall
      have h1 := dispatch_count15_le τ q p s huniq
      omega
    · have h0 : (reminder_rows s).countP (fun row =>
          decide (row.quote_request_id = q ∧ row.provider_id = p ∧
            ¬ (60 ≤ elapsed_minutes τ row.created_at ∧ row.reminder_60_sent = false) ∧
            15 ≤ elapsed_minutes τ row.created_at ∧ row.reminder_15_sent = false)) = 0 :=
        Nat.eq_zero_of_not_pos hfire
      have h1 : reminder_count q p "15m" (dispatch_quote_reminders τ s).1 = 0 := by
        rw [dispatch_emits, count_emitted_15]
        exact h0
      have huniq2 : (dispatch_quote_reminders τ s).2.quote_request_targets.countP
          (keyb q p) ≤ 1 := by
        rw [dispatch_keycount]
        exact huniq
      have h2 := ih _ huniq2
      omega

/-- The 15-minute branch of a flag update leaves every stored 60-minute flag
at its old value. -/
theorem apply_row_update_15_keeps_r60_map {now : Int} {row : QuoteTargetRow}
    {st : ServiceStore}
    (h60 : ¬ (60 ≤ elapsed_minutes now row.created_at ∧ row.reminder_60_sent = false))
    (h15 : 15 ≤ elapsed_minutes now row.created_at ∧ row.reminder_15_sent = false) :
    (apply_row_update now row st).quote_request_targets.map
        (fun t => t.reminder_60_sent) =
      st.quote_request_targets.map (fun t => t.reminder_60_sent) := by
  unfold apply_row_update
  dsimp only
  rw [if_neg h60, if_pos h15, List.map_map]
  apply List.map_congr_left
  intro t ht
  dsimp only [Function.comp]
  split <;> rfl

/-- A row firing neither tier leaves the store untouched. -/
theorem apply_row_update_noop {now : Int} {row : QuoteTargetRow} {st : ServiceStore}
    (h60 : ¬ (60 ≤ elapsed_minutes now row.created_at ∧ row.reminder_60_sent = false))
    (h15 : ¬ (15 ≤ elapsed_minutes now row.created_at ∧ row.reminder_15_sent = false)) :
    apply_row_update now row st = st := by
  unfold apply_row_update
  dsimp only
  rw [if_neg h60, if_neg h15]

/-- C7: the reminder dispatcher is idempotent per tier.  Across any sequence
of `dispatch_quote_reminders` invocations on a store holding at most one
target for key (q, p), each reminder tier is emitted at most once in total
for that key, and a tier is never emitted at all once every (q, p) target
carries its flag.  Per processed row: when elapsed minutes are at least 60
and the 60-minute flag is unset, the row emits the 60-minute reminder and
the update marks both flags on every stored target of its key; otherwise,
when elapsed minutes are at least 15 and the 15-minute flag is unset, the
row emits the 15-minute reminder and the update marks only the 15-minute
flag, every stored 60-minute flag keeping its old value; when neither
condition holds nothing is emitted and the store is unchanged. -/
theorem reminder_tiers_fire_at_most_once (q p : String) (times : List Int)
    (now : Int) (row : QuoteTargetRow) (s : ServiceStore)
    (huniq : s.quote_request_targets.countP (keyb q p) ≤ 1) :
    reminder_count q p "60m" (dispatch_many times s).1 ≤ 1 ∧
    reminder_count q p "15m" (dispatch_many times s).1 ≤ 1 ∧
    (all_reminded_60 q p s →
      reminder_count q p "60m" (dispatch_many times s).1 = 0) ∧
    (all_reminded_15 q p s →
      reminder_count q p "15m" (dispatch_many times s).1 = 0) ∧
    ((60 ≤ elapsed_minutes now row.created_at ∧ row.reminder_60_sent = false) →
      row_reminder now row = some ⟨row.quote_request_id, row.provider_id,
        row.owner_user_id, elapsed_minutes now row.created_at, "60m"⟩ ∧
      ∀ u ∈ (apply_row_update now row s).quote_request_targets,
        u.quote_request_id = row.quote_request_id →
        u.provider_id = row.provider_id →
        u.reminder_60_sent = true ∧ u.reminder_15_sent = true) ∧
    (¬ (60 ≤ elapsed_minutes now row.created_at ∧ row.reminder_60_sent = false) →
      (15 ≤ elapsed_minutes now row.created_at ∧ row.reminder_15_sent = false) →
      row_reminder now row = some ⟨row.quote_request_id, row.provider_id,
        row.owner_user_id, elapsed_minutes now row.created_at, "15m"⟩ ∧
      (∀ u ∈ (apply_row_update now row s).quote_request_targets,
        u.quote_request_id = row.quote_request_id →
        u.provider_id = row.provider_id → u.reminder_15_sent = true) ∧
      (apply_row_update now row s).quote_request_targets.map
          (fun t => t.reminder_60_sent) =
        s.quote_request_targets.map (fun t => t.reminder_60_sent)) ∧
    (¬ (60 ≤ elapsed_minutes now row.created_at ∧ row.reminder_60_sent = false) →
      ¬ (15 ≤ elapsed_minutes now row.created_at ∧ row.reminder_15_sent = false) →
      row_reminder now row = none ∧ apply_row_update now row s = s) :=
  ⟨many_count60_le q p times s huniq,
   many_count15_le q p times s huniq,
   fun hall => many_count60_zero q p times s hall,
   fun hall => many_count15_zero q p times s hall,
   fun h60 => ⟨row_reminder_60 h60, apply_row_update_sets_60 rfl rfl h60⟩,
   fun h60 h15 => ⟨row_reminder_15 h60 h15,
     apply_row_update_sets_15 rfl rfl h60 h15,
     apply_row_update_15_keeps_r60_map h60 h15⟩,
   fun h60 h15 => ⟨row_reminder_none h60 h15, apply_row_update_noop h60 h15⟩⟩

set_option maxHeartbeats 1000000 in
/-- C7 witness: on the concrete store `rem_store` (one pending target for key
(qr1, p1), created at time 0) polled at 1200 s and 5400 s, the key-uniqueness
hypothesis holds and each tier is emitted at most once; concretely the
sequence emits exactly one 15-minute and one 60-minute reminder. -/
theorem reminder_tiers_fire_at_most_once_witness :
    rem_store.quote_request_targets.countP (keyb "qr1" "p1") ≤ 1 ∧
    reminder_count "qr1" "p1" "60m" (dispatch_many [1200, 5400] rem_store).1 ≤ 1 ∧
    reminder_count "qr1" "p1" "15m" (dispatch_many [1200, 5400] rem_store).1 ≤ 1 ∧
    reminder_count "qr1" "p1" "60m" (dispatch_many [1200, 5400] rem_store).1 = 1 ∧
    reminder_count "qr1" "p1" "15m" (dispatch_many [1200, 5400] rem_store).1 = 1 :=
  ⟨by decide,
   (reminder_tiers_fire_at_most_once "qr1" "p1" [1200, 5400] 5400 qt1 rem_store
     (by decide)).1,
   (reminder_tiers_fire_at_most_once "qr1" "p1" [1200, 5400] 5400 qt1 rem_store
     (by decide)).2.1,
   by decide, by decide⟩

end Barkwise
